import Mathlib

/-
Verification of the sshuttle `nat` firewall method
(`sshuttle/methods/nat.py`): a shallow embedding of
`Method.setup_firewall` and `Method.restore_firewall` as explicit
state-passing functions over an abstract packet-filter backend,
together with proofs of the specified properties.

Modelling conventions:
  * Machine integers (ports, uids, address families) are `Nat`.
  * A backend command is a constructor of `Cmd`; issuing one appends an
    `Event` to a trace.  The backend decides success/failure and carries
    an abstract system state `σ`.
  * A raised Python exception becomes `some e : Option Err` in the
    state; every subsequent operation is skipped once an error is set,
    mirroring exception propagation.
  * `nonfatal` (from `sshuttle.linux`, not under `src/`) is modelled
    from the spec: the wrapped command is attempted and its failure is
    swallowed.
-/

namespace SshuttleNat

/-- Linux numeric value of the IPv4 address family `socket.AF_INET`. -/
def AF_INET : Nat := 2

/-- A command issued to the external backend: either an
`iptables`-style rule command (`ipt` or its TTL-exemption variant
`ipt_ttl`, against a given family and table), or a connection-tracking
flush invocation (`conntrack`). -/
inductive Cmd where
  | ipt (ttlVariant : Bool) (family : Nat) (table : String) (args : List String)
  | conntrack (args : List String)
  deriving DecidableEq

/-- An observable backend interaction: running a command, or querying
whether a chain exists in a table. -/
inductive Event where
  | run (c : Cmd)
  | queryChain (family : Nat) (table : String) (chain : String)
  deriving DecidableEq

/-- Errors raised by the firewall methods: the two
`UnsupportedConfiguration` exceptions raised for a wrong address family
or a UDP request, and `BackendCommandFailed` for a failing required
backend command. -/
inductive Err where
  | unsupportedFamily (family : Nat)
  | udpNotSupported
  | backendFailed (c : Cmd)
  deriving DecidableEq

/-- Modelled from the spec (sections 5 and 6): the external backend
command executor and chain-existence query (`sshuttle.linux.ipt`,
`ipt_ttl`, `ipt_chain_exists` are not under `src/`).  `exec` runs one
command against the abstract system state and reports success;
`chainExists` answers the chain-existence query. -/
structure Backend (σ : Type) where
  exec : σ → Cmd → σ × Bool
  chainExists : σ → Nat → String → String → Bool

/-- Execution state threaded through the firewall methods: the abstract
backend system state, the trace of backend interactions so far, and the
pending error (a raised exception), if any. -/
structure St (σ : Type) where
  sys : σ
  trace : List Event
  err : Option Err
  deriving DecidableEq

/-- Modelled from the spec: issue one rule command through the backend
executor (`sshuttle.linux.ipt` / `ipt_ttl`, not under `src/`); a
failing command raises `BackendCommandFailed`.  Skipped when an error
is already pending. -/
def runIpt {σ : Type} (b : Backend σ) (ttlVariant : Bool) (family : Nat)
    (table : String) (args : List String) (st : St σ) : St σ :=
  match st.err with
  | some _ => st
  | none =>
    let c := Cmd.ipt ttlVariant family table args
    let r := b.exec st.sys c
    { sys := r.1, trace := st.trace ++ [Event.run c],
      err := if r.2 then none else some (Err.backendFailed c) }

/-- Modelled from the spec: `sshuttle.linux.nonfatal` (not under
`src/`) attempts the wrapped command and swallows its failure. -/
def nonfatalRun {σ : Type} (act : St σ → St σ) (st : St σ) : St σ :=
  match st.err with
  | some _ => st
  | none => { act st with err := none }

/-- The connection-tracking flush at the end of `setup_firewall`
(lines 110-117): `check_output(["conntrack", ...])` is run and a
`CalledProcessError` is caught and ignored, so the command is issued
but never raises. -/
def runConntrack {σ : Type} (b : Backend σ) (args : List String) (st : St σ) : St σ :=
  match st.err with
  | some _ => st
  | none =>
    let c := Cmd.conntrack args
    let r := b.exec st.sys c
    { sys := r.1, trace := st.trace ++ [Event.run c], err := none }

/-- Modelled from the spec: the chain-existence query
(`sshuttle.linux.ipt_chain_exists`, not under `src/`): a pure backend
query recorded in the trace. -/
def queryChainExists {σ : Type} (b : Backend σ) (family : Nat)
    (table : String) (chain : String) (st : St σ) : Bool × St σ :=
  (b.chainExists st.sys family table chain,
   { st with trace := st.trace ++ [Event.queryChain family table chain] })

/-- The per-instance chain name `'sshuttle-%s' % port`
(lines 38 and 139). -/
def chainName (port : Nat) : String :=
  "sshuttle-" ++ toString port

/-- A subnet entry as destructured on line 75: the tuple
`(sfamily, swidth, sexclude, snet, fport, lport)`. -/
structure SubnetEntry where
  sfamily : Nat
  swidth : Nat
  sexclude : Bool
  snet : String
  fport : Nat
  lport : Nat
  deriving DecidableEq

/-- Modelled from the spec: `sshuttle.firewall.subnet_weight` is not
under `src/`; the spec says the weighting function ranks more specific
networks and exclusion entries over inclusion entries, with a stable
deterministic tie-break.  The weight is the lexicographic pair
(prefix width, exclusion flag). -/
def subnet_weight (e : SubnetEntry) : Nat × Nat :=
  (e.swidth, if e.sexclude then 1 else 0)

/-- Strict lexicographic comparison of weights. -/
def weightLt (p q : Nat × Nat) : Bool :=
  p.1 < q.1 || (p.1 == q.1 && p.2 < q.2)

/-- Insert an entry into a weight-descending sorted list, before the
first entry it is not outweighed by (keeping earlier entries of equal
weight first). -/
def insertDesc (x : SubnetEntry) : List SubnetEntry → List SubnetEntry
  | [] => [x]
  | y :: ys =>
    if weightLt (subnet_weight x) (subnet_weight y) then y :: insertDesc x ys
    else x :: y :: ys

/-- Modelled from the spec: Python's
`sorted(subnets, key=subnet_weight, reverse=True)` (line 76) is a
stable sort, descending by weight; a stable insertion sort with the
same comparison yields the identical ordering. -/
def sortSubnetsDesc : List SubnetEntry → List SubnetEntry
  | [] => []
  | x :: xs => insertDesc x (sortSubnetsDesc xs)

/-- Teardown `Method.restore_firewall` (lines 119-152): after the
family/UDP checks, if the named chain exists, the mark rule (when a
user is set) and the OUTPUT/PREROUTING entry rules are removed
non-fatally, the chain is flushed non-fatally, and the chain is
deleted fatally. -/
def restore_firewall {σ : Type} (b : Backend σ) (port : Nat) (family : Nat)
    (udp : Bool) (user : Option Nat) (st : St σ) : St σ :=
  match st.err with
  | some _ => st
  | none =>
    if family ≠ AF_INET then { st with err := some (Err.unsupportedFamily family) }
    else if udp then { st with err := some Err.udpNotSupported }
    else
      let chain := chainName port
      let q := queryChainExists b family "nat" chain st
      if q.1 then
        let step2 :=
          match user with
          | some u =>
            (["-m", "mark", "--mark", toString port, "-j", chain],
             nonfatalRun (runIpt b false family "mangle"
               ["-D", "OUTPUT", "-m", "owner", "--uid-owner", toString u,
                "-j", "MARK", "--set-mark", toString port]) q.2)
          | none => (["-j", chain], q.2)
        let st3 := nonfatalRun (runIpt b false family "nat"
          (["-D", "OUTPUT"] ++ step2.1)) step2.2
        let st4 := nonfatalRun (runIpt b false family "nat"
          (["-D", "PREROUTING"] ++ step2.1)) st3
        let st5 := nonfatalRun (runIpt b false family "nat" ["-F", chain]) st4
        runIpt b false family "nat" ["-X", chain] st5
      else q.2

/-- The DNS redirection loop of `setup_firewall` (lines 62-67): one
redirect rule per nameserver of the matching family. -/
def dnsLoop {σ : Type} (b : Backend σ) (family : Nat) (dnsport : Nat)
    (chain : String) : List (Nat × String) → St σ → St σ
  | [], st => st
  | ns :: rest, st =>
    dnsLoop b family dnsport chain rest
      (runIpt b false family "nat"
        ["-A", chain, "-j", "REDIRECT", "--dest", ns.2 ++ "/32", "-p", "udp",
         "--dport", "53", "--to-ports", toString dnsport] st)

/-- The subnet loop of `setup_firewall` (lines 74-88): a return rule
for excluded entries, a redirect rule otherwise; the destination
port-range filter is attached only when `fport` is nonzero. -/
def subnetLoop {σ : Type} (b : Backend σ) (family : Nat) (port : Nat)
    (chain : String) : List SubnetEntry → St σ → St σ
  | [], st => st
  | s :: rest, st =>
    let tcp_ports :=
      if s.fport ≠ 0 then
        ["-p", "tcp", "--dport", toString s.fport ++ ":" ++ toString s.lport]
      else ["-p", "tcp"]
    let st1 :=
      if s.sexclude then
        runIpt b false family "nat"
          (["-A", chain, "-j", "RETURN",
            "--dest", s.snet ++ "/" ++ toString s.swidth] ++ tcp_ports) st
      else
        runIpt b false family "nat"
          (["-A", chain, "-j", "REDIRECT",
            "--dest", s.snet ++ "/" ++ toString s.swidth] ++ tcp_ports
           ++ ["--to-ports", toString port]) st
    subnetLoop b family port chain rest st1

/-- The body of `Method.setup_firewall` after the initial teardown call
(lines 43-117): chain creation, the optional user mark rule, the
OUTPUT/PREROUTING entry inserts, the TTL exemption, DNS redirects, the
local-address return, the sorted subnet rules, the LLMNR redirect, and
the swallowed connection-tracking flush. -/
def setup_core {σ : Type} (b : Backend σ) (port : Nat) (dnsport : Nat)
    (nslist : List (Nat × String)) (family : Nat) (subnets : List SubnetEntry)
    (user : Option Nat) (st : St σ) : St σ :=
  match st.err with
  | some _ => st
  | none =>
    let chain := chainName port
    let st1 := runIpt b false family "nat" ["-N", chain] st
    let st2 := runIpt b false family "nat" ["-F", chain] st1
    let step3 :=
      match user with
      | some u =>
        (["-m", "mark", "--mark", toString port, "-j", chain],
         runIpt b false family "mangle"
           ["-I", "OUTPUT", "1", "-m", "owner", "--uid-owner", toString u,
            "-j", "MARK", "--set-mark", toString port] st2)
      | none => (["-j", chain], st2)
    let st4 := runIpt b false family "nat" (["-I", "OUTPUT", "1"] ++ step3.1) step3.2
    let st5 := runIpt b false family "nat" (["-I", "PREROUTING", "1"] ++ step3.1) st4
    let st6 := runIpt b true family "nat"
      ["-A", chain, "-j", "RETURN", "-m", "ttl", "--ttl", "63"] st5
    let st7 := dnsLoop b family dnsport chain
      (nslist.filter (fun i => i.1 == family)) st6
    let st8 := runIpt b false family "nat"
      ["-A", chain, "-j", "RETURN", "-m", "addrtype", "--dst-type", "LOCAL"] st7
    let st9 := subnetLoop b family port chain (sortSubnetsDesc subnets) st8
    let st10 := runIpt b true family "nat"
      ["-A", chain, "-j", "REDIRECT", "--dest", "224.0.0.252/32", "-p", "udp",
       "--dport", "5355", "--to-ports", toString dnsport] st9
    runConntrack b ["-D", "--dst", "224.0.0.252"] st10

/-- Setup `Method.setup_firewall` (lines 17-117): the family/UDP
checks, the unconditional teardown (line 41), then the installation
sequence `setup_core`. -/
def setup_firewall {σ : Type} (b : Backend σ) (port : Nat) (dnsport : Nat)
    (nslist : List (Nat × String)) (family : Nat) (subnets : List SubnetEntry)
    (udp : Bool) (user : Option Nat) (st : St σ) : St σ :=
  match st.err with
  | some _ => st
  | none =>
    if family ≠ AF_INET then { st with err := some (Err.unsupportedFamily family) }
    else if udp then { st with err := some Err.udpNotSupported }
    else
      setup_core b port dnsport nslist family subnets user
        (restore_firewall b port family udp user st)

/-- A stateless backend for reasoning about the issued commands alone:
`f` says which commands fail, `ex` answers every chain-existence
query. -/
def staticBackend (f : Cmd → Bool) (ex : Bool) : Backend Unit :=
  { exec := fun _ c => ((), ! f c), chainExists := fun _ _ _ _ => ex }

/-- The always-succeeding stateless backend with no pre-existing
chain. -/
def okBackend : Backend Unit := staticBackend (fun _ => false) false

/-- The rule-specification tail shared by the OUTPUT/PREROUTING entry
rules: a mark match plus the jump when a user is set (line 48 and
line 146), a bare jump otherwise (lines 50 and 148). -/
def entryArgsOf (port : Nat) (user : Option Nat) : List String :=
  match user with
  | some _ => ["-m", "mark", "--mark", toString port, "-j", chainName port]
  | none => ["-j", chainName port]

/-- The rule-specification tail of the per-user mark rule
(lines 46-47 and 144-145). -/
def markRuleArgs (port : Nat) (u : Nat) : List String :=
  ["-m", "owner", "--uid-owner", toString u, "-j", "MARK", "--set-mark",
   toString port]

/-- The chain-body rule appended by the TTL exemption (line 58), minus
the leading append arguments. -/
def ttlRuleBody : List String :=
  ["-j", "RETURN", "-m", "ttl", "--ttl", "63"]

/-- The chain-body rule appended for one nameserver (lines 63-67). -/
def dnsRuleBody (dnsport : Nat) (ns : Nat × String) : List String :=
  ["-j", "REDIRECT", "--dest", ns.2 ++ "/32", "-p", "udp", "--dport", "53",
   "--to-ports", toString dnsport]

/-- The local-address-type return rule (lines 70-72). -/
def localRuleBody : List String :=
  ["-j", "RETURN", "-m", "addrtype", "--dst-type", "LOCAL"]

/-- The destination port-range filter of a subnet rule: attached
exactly when `fport` is nonzero (lines 77-79). -/
def tcpPortArgs (s : SubnetEntry) : List String :=
  if s.fport ≠ 0 then
    ["-p", "tcp", "--dport", toString s.fport ++ ":" ++ toString s.lport]
  else ["-p", "tcp"]

/-- The chain-body rule appended for one subnet entry (lines 81-88): a
return rule for an excluded entry, a redirect to `port` otherwise. -/
def subnetRuleBody (port : Nat) (s : SubnetEntry) : List String :=
  if s.sexclude then
    ["-j", "RETURN", "--dest", s.snet ++ "/" ++ toString s.swidth] ++ tcpPortArgs s
  else
    ["-j", "REDIRECT", "--dest", s.snet ++ "/" ++ toString s.swidth]
      ++ tcpPortArgs s ++ ["--to-ports", toString port]

/-- The LLMNR fallback rule (lines 103-107). -/
def llmnrRuleBody (dnsport : Nat) : List String :=
  ["-j", "REDIRECT", "--dest", "224.0.0.252/32", "-p", "udp", "--dport", "5355",
   "--to-ports", toString dnsport]

/-- The full command appending one nameserver redirect rule. -/
def dnsRuleCmd (dnsport : Nat) (chain : String) (ns : Nat × String) : Cmd :=
  Cmd.ipt false AF_INET "nat" (["-A", chain] ++ dnsRuleBody dnsport ns)

/-- The full command appending one subnet rule. -/
def subnetRuleCmd (port : Nat) (chain : String) (s : SubnetEntry) : Cmd :=
  Cmd.ipt false AF_INET "nat" (["-A", chain] ++ subnetRuleBody port s)

/-- The backend interactions of a teardown that finds its chain
present: the existence query, the non-fatal mark removal (when a user
is set), the non-fatal OUTPUT/PREROUTING entry removals, the non-fatal
chain flush, and the chain deletion. -/
def restoreEvents (port : Nat) (user : Option Nat) : List Event :=
  [Event.queryChain AF_INET "nat" (chainName port)]
  ++ (match user with
      | some u =>
        [Event.run (Cmd.ipt false AF_INET "mangle"
          (["-D", "OUTPUT"] ++ markRuleArgs port u))]
      | none => [])
  ++ [Event.run (Cmd.ipt false AF_INET "nat"
        (["-D", "OUTPUT"] ++ entryArgsOf port user)),
      Event.run (Cmd.ipt false AF_INET "nat"
        (["-D", "PREROUTING"] ++ entryArgsOf port user)),
      Event.run (Cmd.ipt false AF_INET "nat" ["-F", chainName port]),
      Event.run (Cmd.ipt false AF_INET "nat" ["-X", chainName port])]

/-- The backend interactions of a teardown, depending on whether the
chain exists. -/
def restoreEventsIf (ex : Bool) (port : Nat) (user : Option Nat) : List Event :=
  if ex then restoreEvents port user
  else [Event.queryChain AF_INET "nat" (chainName port)]

/-- The backend interactions of the installation sequence after the
initial teardown. -/
def coreEvents (port : Nat) (dnsport : Nat) (nslist : List (Nat × String))
    (subnets : List SubnetEntry) (user : Option Nat) : List Event :=
  [Event.run (Cmd.ipt false AF_INET "nat" ["-N", chainName port]),
   Event.run (Cmd.ipt false AF_INET "nat" ["-F", chainName port])]
  ++ (match user with
      | some u =>
        [Event.run (Cmd.ipt false AF_INET "mangle"
          (["-I", "OUTPUT", "1"] ++ markRuleArgs port u))]
      | none => [])
  ++ [Event.run (Cmd.ipt false AF_INET "nat"
        (["-I", "OUTPUT", "1"] ++ entryArgsOf port user)),
      Event.run (Cmd.ipt false AF_INET "nat"
        (["-I", "PREROUTING", "1"] ++ entryArgsOf port user)),
      Event.run (Cmd.ipt true AF_INET "nat"
        (["-A", chainName port] ++ ttlRuleBody))]
  ++ (nslist.filter (fun i => i.1 == AF_INET)).map
       (fun ns => Event.run (dnsRuleCmd dnsport (chainName port) ns))
  ++ [Event.run (Cmd.ipt false AF_INET "nat"
        (["-A", chainName port] ++ localRuleBody))]
  ++ (sortSubnetsDesc subnets).map
       (fun s => Event.run (subnetRuleCmd port (chainName port) s))
  ++ [Event.run (Cmd.ipt true AF_INET "nat"
        (["-A", chainName port] ++ llmnrRuleBody dnsport)),
      Event.run (Cmd.conntrack ["-D", "--dst", "224.0.0.252"])]

/-- The backend interactions of a full setup call. -/
def setupEvents (ex : Bool) (port : Nat) (dnsport : Nat)
    (nslist : List (Nat × String)) (subnets : List SubnetEntry)
    (user : Option Nat) : List Event :=
  restoreEventsIf ex port user ++ coreEvents port dnsport nslist subnets user

/-- Select a command appending to the body of the given chain. -/
def chainBodyPick (chain : String) (e : Event) : Option Cmd :=
  match e with
  | Event.run (Cmd.ipt ttl fam tbl args) =>
    if args.take 2 = ["-A", chain] then some (Cmd.ipt ttl fam tbl args)
    else none
  | _ => none

/-- The commands a trace appends to the body of the given chain, in
order. -/
def chainBody (chain : String) (tr : List Event) : List Cmd :=
  tr.filterMap (chainBodyPick chain)

/-- Select a UDP port-53 redirect rule appended to the given chain:
destination filter and redirection target port. -/
def dnsRedirectPick (chain : String) (e : Event) : Option (String × String) :=
  match e with
  | Event.run (Cmd.ipt _ _ _ ("-A" :: ch :: "-j" :: "REDIRECT" :: "--dest"
      :: dest :: "-p" :: "udp" :: "--dport" :: "53" :: "--to-ports"
      :: tp :: [])) =>
    if ch = chain then some (dest, tp) else none
  | _ => none

/-- The UDP port-53 redirect rules of a trace appended to the given
chain. -/
def dnsRedirects (chain : String) (tr : List Event) : List (String × String) :=
  tr.filterMap (dnsRedirectPick chain)

/-- Select a nat-table position-1 insert: target chain and
rule-specification tail. -/
def natInsertPick (e : Event) : Option (String × List String) :=
  match e with
  | Event.run (Cmd.ipt _ _ "nat" ("-I" :: ch :: "1" :: rest)) =>
    some (ch, rest)
  | _ => none

/-- The nat-table position-1 inserts of a trace. -/
def natInserts (tr : List Event) : List (String × List String) :=
  tr.filterMap natInsertPick

/-- Select a nat-table rule deletion: target chain and
rule-specification tail. -/
def natDeletePick (e : Event) : Option (String × List String) :=
  match e with
  | Event.run (Cmd.ipt _ _ "nat" ("-D" :: ch :: rest)) => some (ch, rest)
  | _ => none

/-- The nat-table rule deletions of a trace. -/
def natDeletes (tr : List Event) : List (String × List String) :=
  tr.filterMap natDeletePick

/-- Select a mangle-table position-1 insert. -/
def mangleInsertPick (e : Event) : Option (String × List String) :=
  match e with
  | Event.run (Cmd.ipt _ _ "mangle" ("-I" :: ch :: "1" :: rest)) =>
    some (ch, rest)
  | _ => none

/-- The mangle-table position-1 inserts of a trace. -/
def mangleInserts (tr : List Event) : List (String × List String) :=
  tr.filterMap mangleInsertPick

/-- Select a mangle-table rule deletion. -/
def mangleDeletePick (e : Event) : Option (String × List String) :=
  match e with
  | Event.run (Cmd.ipt _ _ "mangle" ("-D" :: ch :: rest)) => some (ch, rest)
  | _ => none

/-- The mangle-table rule deletions of a trace. -/
def mangleDeletes (tr : List Event) : List (String × List String) :=
  tr.filterMap mangleDeletePick

/-- The nat-table command shapes permitted by claim C9 as stated:
create, flush, or append targeting the per-instance chain, or a
position-1 insert into OUTPUT/PREROUTING of a rule jumping to that
chain. -/
def claimNatCmdOk (port : Nat) (args : List String) : Bool :=
  args == ["-N", chainName port] || args == ["-F", chainName port]
  || args.take 2 == ["-A", chainName port]
  || ((args.take 3 == ["-I", "OUTPUT", "1"]
       || args.take 3 == ["-I", "PREROUTING", "1"])
      && List.isSuffixOf ["-j", chainName port] args)

/-- Claim C9 as stated, as a predicate on one backend interaction: nat
commands are restricted to `claimNatCmdOk`, and the only rule command
outside the nat table is the single mark-rule insert in the mangle
table (present only when a user is set). -/
def claimEventOk (port : Nat) (user : Option Nat) (e : Event) : Bool :=
  match e with
  | Event.run (Cmd.ipt _ _ "nat" args) => claimNatCmdOk port args
  | Event.run (Cmd.ipt _ _ "mangle" args) =>
    user.isSome && args.take 3 == ["-I", "OUTPUT", "1"]
  | Event.run (Cmd.ipt _ _ _ _) => false
  | Event.run (Cmd.conntrack _) => true
  | Event.queryChain _ _ _ => true

/-- The amended nat-table command shapes: additionally the chain
deletion targeting the per-instance chain, and OUTPUT/PREROUTING
deletions of a rule jumping to that chain. -/
def amendedNatCmdOk (port : Nat) (args : List String) : Bool :=
  args == ["-N", chainName port] || args == ["-F", chainName port]
  || args == ["-X", chainName port]
  || args.take 2 == ["-A", chainName port]
  || ((args.take 3 == ["-I", "OUTPUT", "1"]
       || args.take 3 == ["-I", "PREROUTING", "1"]
       || args.take 2 == ["-D", "OUTPUT"]
       || args.take 2 == ["-D", "PREROUTING"])
      && List.isSuffixOf ["-j", chainName port] args)

/-- Amended claim C9 as a predicate on one backend interaction: nat
commands are restricted to `amendedNatCmdOk`; mangle commands are the
position-1 insert and the deletion of the per-user mark rule tagging
with this instance's port. -/
def amendedEventOk (port : Nat) (e : Event) : Bool :=
  match e with
  | Event.run (Cmd.ipt _ _ "nat" args) => amendedNatCmdOk port args
  | Event.run (Cmd.ipt _ _ "mangle" args) =>
    (args.take 3 == ["-I", "OUTPUT", "1"] || args.take 2 == ["-D", "OUTPUT"])
    && List.isSuffixOf ["--set-mark", toString port] args
  | Event.run (Cmd.ipt _ _ _ _) => false
  | Event.run (Cmd.conntrack _) => true
  | Event.queryChain _ _ _ => true

/-
An interpreter for the packet-filter state, to settle the idempotence
claim.  Modelled from the spec (section 3 and the glossary): a table
maps chain names to ordered rule lists; creating an existing chain or
operating on a missing one fails; a chain can be deleted only when it
is empty and unreferenced; position-1 insertion prepends; deletion
removes the first rule equal to the given specification.
-/

/-- A rule as stored in a chain: the rule-specification arguments. -/
abbrev Rule := List String

/-- A table: an association list from chain names to rule lists. -/
abbrev Chains := List (String × List Rule)

/-- Look up a chain by name. -/
def lookupChain : Chains → String → Option (List Rule)
  | [], _ => none
  | c :: cs, n => if c.1 = n then some c.2 else lookupChain cs n

/-- Replace the rules of every chain of the given name. -/
def setChain : Chains → String → List Rule → Chains
  | [], _, _ => []
  | c :: cs, n, rs => (if c.1 = n then (c.1, rs) else c) :: setChain cs n rs

/-- Remove every chain of the given name. -/
def delChain (cs : Chains) (n : String) : Chains :=
  cs.filter (fun c => c.1 != n)

/-- Whether any rule of the table jumps to the given chain. -/
def referenced (cs : Chains) (n : String) : Bool :=
  cs.any (fun c => c.2.any (fun r => List.isSuffixOf ["-j", n] r))

/-- Remove the first rule equal to the given specification; `none`
when no rule matches. -/
def removeFirst : List Rule → Rule → Option (List Rule)
  | [], _ => none
  | x :: xs, r =>
    if x = r then some xs else (removeFirst xs r).map (fun ys => x :: ys)

/-- Modelled from the spec: the effect of one rule command on a table;
`none` is command failure. -/
def execChains (cs : Chains) (args : List String) : Option Chains :=
  match args with
  | ["-N", c] =>
    if (lookupChain cs c).isSome then none else some (cs ++ [(c, [])])
  | ["-F", c] =>
    if (lookupChain cs c).isSome then some (setChain cs c []) else none
  | ["-X", c] =>
    match lookupChain cs c with
    | none => none
    | some rs =>
      if rs.isEmpty && ! referenced (delChain cs c) c then some (delChain cs c)
      else none
  | "-I" :: c :: "1" :: rest =>
    match lookupChain cs c with
    | none => none
    | some rs => some (setChain cs c (rest :: rs))
  | "-A" :: c :: rest =>
    match lookupChain cs c with
    | none => none
    | some rs => some (setChain cs c (rs ++ [rest]))
  | "-D" :: c :: rest =>
    match lookupChain cs c with
    | none => none
    | some rs => (removeFirst rs rest).map (setChain cs c)
  | _ => none

/-- The packet-filter state: the nat and mangle tables. -/
structure IptState where
  nat : Chains
  mangle : Chains
  deriving DecidableEq

/-- Modelled from the spec: run one backend command against the
packet-filter state. -/
def IptState.exec (s : IptState) (c : Cmd) : IptState × Bool :=
  match c with
  | Cmd.ipt _ _ "nat" args =>
    match execChains s.nat args with
    | some cs => ({ s with nat := cs }, true)
    | none => (s, false)
  | Cmd.ipt _ _ "mangle" args =>
    match execChains s.mangle args with
    | some cs => ({ s with mangle := cs }, true)
    | none => (s, false)
  | Cmd.ipt _ _ _ _ => (s, false)
  | Cmd.conntrack _ => (s, true)

/-- Modelled from the spec: the stateful packet-filter backend. -/
def iptablesBackend : Backend IptState :=
  { exec := IptState.exec,
    chainExists := fun s _ tbl ch =>
      match tbl with
      | "nat" => (lookupChain s.nat ch).isSome
      | "mangle" => (lookupChain s.mangle ch).isSome
      | _ => false }

/-- The chain-body rules a successful setup stores in the per-instance
chain. -/
def chainBodyRules (port : Nat) (dnsport : Nat) (nslist : List (Nat × String))
    (subnets : List SubnetEntry) : List Rule :=
  [ttlRuleBody]
  ++ (nslist.filter (fun i => i.1 == AF_INET)).map (dnsRuleBody dnsport)
  ++ [localRuleBody]
  ++ (sortSubnetsDesc subnets).map (subnetRuleBody port)
  ++ [llmnrRuleBody dnsport]

/-- The packet-filter state a successful setup produces from a state
whose nat table maps OUTPUT to `o` and PREROUTING to `pr` and whose
mangle table maps OUTPUT to `mo`. -/
def coreResultState (s0 : IptState) (port : Nat) (dnsport : Nat)
    (nslist : List (Nat × String)) (subnets : List SubnetEntry)
    (user : Option Nat) (o pr mo : List Rule) : IptState :=
  { nat := setChain (setChain s0.nat "OUTPUT" (entryArgsOf port user :: o))
             "PREROUTING" (entryArgsOf port user :: pr)
           ++ [(chainName port, chainBodyRules port dnsport nslist subnets)],
    mangle :=
      match user with
      | some u => setChain s0.mangle "OUTPUT" (markRuleArgs port u :: mo)
      | none => s0.mangle }

def setupTrace (port dnsport : Nat) (nslist : List (Nat × String))
    (subnets : List SubnetEntry) (user : Option Nat) : List Event :=
  (setup_firewall okBackend port dnsport nslist AF_INET subnets false user
    ⟨(), [], none⟩).trace

def restoreTraceEx (port : Nat) (user : Option Nat) : List Event :=
  (restore_firewall (staticBackend (fun _ => false) true) port AF_INET false
    user ⟨(), [], none⟩).trace

/-
Helper lemmas.
-/

theorem St.withErrNone {σ : Type} (st : St σ) (h : st.err = none) :
    ({ st with err := none } : St σ) = st := by
  cases st; simp_all

theorem runIpt_static (f : Cmd → Bool) (ex : Bool) (ttl : Bool) (family : Nat)
    (table : String) (args : List String) (tr : List Event) :
    runIpt (staticBackend f ex) ttl family table args ⟨(), tr, none⟩ =
      ⟨(), tr ++ [Event.run (Cmd.ipt ttl family table args)],
       if f (Cmd.ipt ttl family table args) = true
       then some (Err.backendFailed (Cmd.ipt ttl family table args)) else none⟩ := by
  cases h : f (Cmd.ipt ttl family table args) <;>
    simp [runIpt, staticBackend, h]

theorem nonfatalRun_none {σ : Type} (act : St σ → St σ) (st : St σ)
    (h : st.err = none) :
    nonfatalRun act st = { act st with err := none } := by
  simp [nonfatalRun, h]

theorem dnsLoop_static (f : Cmd → Bool) (ex : Bool)
    (hf : ∀ ttl fam tbl a, f (Cmd.ipt ttl fam tbl a) = false)
    (family dnsport : Nat) (chain : String) (l : List (Nat × String))
    (tr : List Event) :
    dnsLoop (staticBackend f ex) family dnsport chain l ⟨(), tr, none⟩ =
      ⟨(), tr ++ l.map (fun ns => Event.run (Cmd.ipt false family "nat"
        (["-A", chain] ++ dnsRuleBody dnsport ns))), none⟩ := by
  induction l generalizing tr with
  | nil => simp [dnsLoop]
  | cons ns rest ih =>
    rw [dnsLoop, runIpt_static]
    simp only [hf, if_false, Bool.false_eq_true]
    rw [ih]
    simp [dnsRuleBody]

theorem subnetLoop_static (f : Cmd → Bool) (ex : Bool)
    (hf : ∀ ttl fam tbl a, f (Cmd.ipt ttl fam tbl a) = false)
    (family port : Nat) (chain : String) (l : List SubnetEntry)
    (tr : List Event) :
    subnetLoop (staticBackend f ex) family port chain l ⟨(), tr, none⟩ =
      ⟨(), tr ++ l.map (fun s => Event.run (Cmd.ipt false family "nat"
        (["-A", chain] ++ subnetRuleBody port s))), none⟩ := by
  induction l generalizing tr with
  | nil => simp [subnetLoop]
  | cons s rest ih =>
    rw [subnetLoop]
    cases hs : s.sexclude <;>
      simp only [hs, if_true, if_false, Bool.false_eq_true, reduceIte] <;>
      rw [runIpt_static] <;>
      simp only [hf, if_false, Bool.false_eq_true, reduceIte] <;>
      rw [ih] <;>
      by_cases hp : s.fport = 0 <;>
      simp [subnetRuleBody, tcpPortArgs, hs, hp]

theorem core_static (f : Cmd → Bool) (ex : Bool)
    (hf : ∀ ttl fam tbl a, f (Cmd.ipt ttl fam tbl a) = false)
    (port dnsport : Nat) (nslist : List (Nat × String))
    (subnets : List SubnetEntry) (user : Option Nat) (tr : List Event) :
    setup_core (staticBackend f ex) port dnsport nslist AF_INET subnets user
      ⟨(), tr, none⟩ =
      ⟨(), tr ++ coreEvents port dnsport nslist subnets user, none⟩ := by
  cases user <;>
    (rw [setup_core]
     simp only [runIpt_static, hf, Bool.false_eq_true, if_false, reduceIte,
       dnsLoop_static f ex hf, subnetLoop_static f ex hf]
     simp [runConntrack, coreEvents, entryArgsOf, markRuleArgs, dnsRuleCmd,
       subnetRuleCmd, ttlRuleBody, localRuleBody, llmnrRuleBody, dnsRuleBody])

theorem restore_static_eq (f : Cmd → Bool) (ex : Bool) (port : Nat)
    (user : Option Nat) (tr : List Event) :
    restore_firewall (staticBackend f ex) port AF_INET false user ⟨(), tr, none⟩ =
      ⟨(), tr ++ restoreEventsIf ex port user,
       if ex && f (Cmd.ipt false AF_INET "nat" ["-X", chainName port])
       then some (Err.backendFailed
         (Cmd.ipt false AF_INET "nat" ["-X", chainName port]))
       else none⟩ := by
  cases ex with
  | false =>
    simp [restore_firewall, queryChainExists, staticBackend, restoreEventsIf,
      AF_INET]
  | true =>
    cases hX : f (Cmd.ipt false 2 "nat" ["-X", chainName port]) <;>
      cases user <;>
        simp [restore_firewall, queryChainExists, staticBackend,
          restoreEventsIf, restoreEvents, nonfatalRun_none, runIpt_static,
          hX, entryArgsOf, markRuleArgs, AF_INET, nonfatalRun, runIpt]

theorem setup_static_eq (f : Cmd → Bool) (ex : Bool)
    (hf : ∀ ttl fam tbl a, f (Cmd.ipt ttl fam tbl a) = false)
    (port dnsport : Nat) (nslist : List (Nat × String))
    (subnets : List SubnetEntry) (user : Option Nat) (tr : List Event) :
    setup_firewall (staticBackend f ex) port dnsport nslist AF_INET subnets
      false user ⟨(), tr, none⟩ =
      ⟨(), tr ++ setupEvents ex port dnsport nslist subnets user, none⟩ := by
  rw [setup_firewall]
  simp only [AF_INET, ne_eq, not_true_eq_false, if_false, Bool.false_eq_true,
    reduceIte]
  rw [show (2 : Nat) = AF_INET from rfl, restore_static_eq, hf]
  simp only [Bool.and_false, if_false, Bool.false_eq_true, reduceIte]
  rw [core_static f ex hf]
  simp [setupEvents]

theorem filterMap_congr_some {α β : Type} (f : α → Option β) (g : α → β)
    (l : List α) (h : ∀ a ∈ l, f a = some (g a)) : l.filterMap f = l.map g := by
  induction l with
  | nil => rfl
  | cons a as ih =>
    simp [List.filterMap_cons, h a (by simp)]
    exact ih (fun x hx => h x (by simp [hx]))

theorem filterMap_all_none {α β : Type} (f : α → Option β) (l : List α)
    (h : ∀ a ∈ l, f a = none) : l.filterMap f = [] := by
  induction l with
  | nil => rfl
  | cons a as ih =>
    rw [List.filterMap_cons, h a (by simp)]
    exact ih (fun x hx => h x (by simp [hx]))

theorem seg_none {α β : Type} (pick : Event → Option β) (f : α → Event)
    (l : List α) (h : ∀ a, pick (f a) = none) :
    (l.map f).filterMap pick = [] := by
  refine filterMap_all_none _ _ ?h
  intro e he
  obtain ⟨a, _, rfl⟩ := List.mem_map.1 he
  exact h a

theorem seg_some {α β : Type} (pick : Event → Option β) (f : α → Event)
    (g : α → β) (l : List α) (h : ∀ a, pick (f a) = some (g a)) :
    (l.map f).filterMap pick = l.map g := by
  induction l with
  | nil => rfl
  | cons a as ih => simp [List.filterMap_cons, h a, ih]


theorem restore_no_chain_noop {σ : Type} (b : Backend σ) (s0 : σ)
    (tr : List Event) (port : Nat) (user : Option Nat)
    (h : b.chainExists s0 AF_INET "nat" (chainName port) = false) :
    restore_firewall b port AF_INET false user ⟨s0, tr, none⟩ =
      ⟨s0, tr ++ [Event.queryChain AF_INET "nat" (chainName port)], none⟩ := by
  have h2 := h
  simp only [AF_INET] at h2
  simp [restore_firewall, queryChainExists, h2, AF_INET]

/-- Claim C1 (amended): in `restore_firewall`, when the chain exists,
the removals of the mark rule and of the OUTPUT/PREROUTING entry rules
AND the flush of the chain body are all non-fatal, while only the
deletion of the chain itself propagates `BackendCommandFailed`. -/
theorem restore_only_chain_delete_fatal (f : Cmd → Bool) (port : Nat)
    (user : Option Nat) :
    restore_firewall (staticBackend f true) port AF_INET false user
      ⟨(), [], none⟩ =
      ⟨(), restoreEvents port user,
       if f (Cmd.ipt false AF_INET "nat" ["-X", chainName port]) = true
       then some (Err.backendFailed
         (Cmd.ipt false AF_INET "nat" ["-X", chainName port]))
       else none⟩ := by
  have h := restore_static_eq f true port user []
  simpa [restoreEventsIf] using h

/-- Claim C1 counterexample: with a backend failing exactly the
chain-flush command, teardown still succeeds (error `none`) although
the flush command was issued and failed — the flush is non-fatal,
contradicting the claim that its failure propagates. -/
theorem restore_flush_failure_swallowed :
    (restore_firewall (staticBackend
        (fun c => c == Cmd.ipt false AF_INET "nat" ["-F", "sshuttle-12300"])
        true) 12300 AF_INET false none ⟨(), [], none⟩).err = none ∧
    Event.run (Cmd.ipt false AF_INET "nat" ["-F", "sshuttle-12300"]) ∈
      (restore_firewall (staticBackend
        (fun c => c == Cmd.ipt false AF_INET "nat" ["-F", "sshuttle-12300"])
        true) 12300 AF_INET false none ⟨(), [], none⟩).trace := by
  decide

/-- Claim C2: the concrete example policy compiles the chain
`sshuttle-12300` with exactly the five rules, in order: TTL return,
DNS redirect to 10.0.0.1:53→12301, local-address return, subnet
redirect 10.0.0.0/8 tcp→12300, and the LLMNR redirect installed via
the TTL-exemption variant. -/
theorem setup_example_chain_rules :
    chainBody "sshuttle-12300"
      ((setup_firewall okBackend 12300 12301 [(2, "10.0.0.1")] 2
        [⟨2, 8, false, "10.0.0.0", 0, 0⟩] false none ⟨(), [], none⟩).trace) =
      [Cmd.ipt true 2 "nat"
         ["-A", "sshuttle-12300", "-j", "RETURN", "-m", "ttl", "--ttl", "63"],
       Cmd.ipt false 2 "nat"
         ["-A", "sshuttle-12300", "-j", "REDIRECT", "--dest", "10.0.0.1/32",
          "-p", "udp", "--dport", "53", "--to-ports", "12301"],
       Cmd.ipt false 2 "nat"
         ["-A", "sshuttle-12300", "-j", "RETURN", "-m", "addrtype",
          "--dst-type", "LOCAL"],
       Cmd.ipt false 2 "nat"
         ["-A", "sshuttle-12300", "-j", "REDIRECT", "--dest", "10.0.0.0/8",
          "-p", "tcp", "--to-ports", "12300"],
       Cmd.ipt true 2 "nat"
         ["-A", "sshuttle-12300", "-j", "REDIRECT", "--dest", "224.0.0.252/32",
          "-p", "udp", "--dport", "5355", "--to-ports", "12301"]] := by
  decide

/-- Claim C4: with an unsupported address family or a UDP request,
both setup and teardown fail immediately with the corresponding
unsupported-configuration error, leave the backend state untouched,
and issue zero backend commands. -/
theorem unsupported_config_rejected {σ : Type} (b : Backend σ) (s0 : σ)
    (port dnsport : Nat) (nslist : List (Nat × String)) (family : Nat)
    (subnets : List SubnetEntry) (udp : Bool) (user : Option Nat)
    (h : family ≠ AF_INET ∨ udp = true) :
    setup_firewall b port dnsport nslist family subnets udp user
      ⟨s0, [], none⟩ =
      ⟨s0, [], some (if family ≠ AF_INET then Err.unsupportedFamily family
                     else Err.udpNotSupported)⟩ ∧
    restore_firewall b port family udp user ⟨s0, [], none⟩ =
      ⟨s0, [], some (if family ≠ AF_INET then Err.unsupportedFamily family
                     else Err.udpNotSupported)⟩ := by
  rcases h with h | h
  · constructor <;> simp [setup_firewall, restore_firewall, h]
  · subst h
    by_cases hf : family = AF_INET
    · subst hf
      constructor <;> simp [setup_firewall, restore_firewall]
    · constructor <;> simp [setup_firewall, restore_firewall, hf]

theorem unsupported_config_rejected_witness :
    ((10 : Nat) ≠ AF_INET ∨ false = true) ∧
    (setup_firewall okBackend 12300 12301 [] 10 [] false none ⟨(), [], none⟩ =
       ⟨(), [], some (Err.unsupportedFamily 10)⟩ ∧
     restore_firewall okBackend 12300 10 false none ⟨(), [], none⟩ =
       ⟨(), [], some (Err.unsupportedFamily 10)⟩) :=
  ⟨Or.inl (by decide), by
    simpa using unsupported_config_rejected okBackend () 12300 12301 [] 10 []
      false none (Or.inl (by decide))⟩

/-- Claim C5: for every policy, setup succeeds whatever the behaviour
of the connection-tracking flush command is — only the rule commands
matter — and the flush is still attempted. -/
theorem conntrack_flush_failure_swallowed (f : Cmd → Bool) (ex : Bool)
    (port dnsport : Nat) (nslist : List (Nat × String))
    (subnets : List SubnetEntry) (user : Option Nat)
    (hf : ∀ ttl fam tbl a, f (Cmd.ipt ttl fam tbl a) = false) :
    (setup_firewall (staticBackend f ex) port dnsport nslist AF_INET subnets
      false user ⟨(), [], none⟩).err = none ∧
    Event.run (Cmd.conntrack ["-D", "--dst", "224.0.0.252"]) ∈
      (setup_firewall (staticBackend f ex) port dnsport nslist AF_INET subnets
        false user ⟨(), [], none⟩).trace := by
  rw [setup_static_eq f ex hf]
  refine ⟨rfl, ?mem⟩
  simp [setupEvents, coreEvents]

theorem conntrack_flush_failure_swallowed_witness :
    (setup_firewall (staticBackend
        (fun c => match c with
          | Cmd.conntrack _ => true
          | _ => false) false) 12300 12301 [(2, "10.0.0.1")] AF_INET
        [⟨2, 8, false, "10.0.0.0", 0, 0⟩] false none ⟨(), [], none⟩).err = none ∧
    Event.run (Cmd.conntrack ["-D", "--dst", "224.0.0.252"]) ∈
      (setup_firewall (staticBackend
        (fun c => match c with
          | Cmd.conntrack _ => true
          | _ => false) false) 12300 12301 [(2, "10.0.0.1")] AF_INET
        [⟨2, 8, false, "10.0.0.0", 0, 0⟩] false none ⟨(), [], none⟩).trace :=
  conntrack_flush_failure_swallowed _ false 12300 12301 _ _ none
    (fun _ _ _ _ => rfl)

/-- Claim C8: teardown on a state whose backend reports no chain for
this port returns success, leaves the backend state unchanged, and
performs no backend interaction beyond the chain-existence query. -/
theorem restore_missing_chain_noop {σ : Type} (b : Backend σ) (s0 : σ)
    (tr : List Event) (port : Nat) (user : Option Nat)
    (h : b.chainExists s0 AF_INET "nat" (chainName port) = false) :
    restore_firewall b port AF_INET false user ⟨s0, tr, none⟩ =
      ⟨s0, tr ++ [Event.queryChain AF_INET "nat" (chainName port)], none⟩ :=
  restore_no_chain_noop b s0 tr port user h

theorem restore_missing_chain_noop_witness :
    okBackend.chainExists () AF_INET "nat" (chainName 12300) = false ∧
    restore_firewall okBackend 12300 AF_INET false none ⟨(), [], none⟩ =
      ⟨(), [Event.queryChain AF_INET "nat" (chainName 12300)], none⟩ :=
  ⟨rfl, by
    simpa using restore_missing_chain_noop okBackend () [] 12300 none rfl⟩


theorem chainBody_dns_seg (c : String) (dnsport : Nat)
    (l : List (Nat × String)) :
    (l.map (fun ns => Event.run (dnsRuleCmd dnsport c ns))).filterMap
      (chainBodyPick c) = l.map (dnsRuleCmd dnsport c) :=
  seg_some _ _ _ _ (fun ns => by simp [chainBodyPick, dnsRuleCmd])

theorem chainBody_subnet_seg (c : String) (port : Nat)
    (l : List SubnetEntry) :
    (l.map (fun s => Event.run (subnetRuleCmd port c s))).filterMap
      (chainBodyPick c) = l.map (subnetRuleCmd port c) :=
  seg_some _ _ _ _ (fun s => by simp [chainBodyPick, subnetRuleCmd])

/-- Claim C6: setup emits exactly one chain-body rule per subnet
entry, iterating the entries sorted descending by the weighting
function, between the fixed head rules (TTL return, DNS redirects,
local return) and the final LLMNR redirect; an excluded entry yields a
return rule and an included one a redirect to `port`
(`subnetRuleBody`), with the port-range filter attached exactly when
`fport` is nonzero (`tcpPortArgs`). -/
theorem setup_subnet_rules (port dnsport : Nat) (nslist : List (Nat × String))
    (subnets : List SubnetEntry) (user : Option Nat) :
    chainBody (chainName port)
      ((setup_firewall okBackend port dnsport nslist AF_INET subnets false
        user ⟨(), [], none⟩).trace) =
      [Cmd.ipt true AF_INET "nat" (["-A", chainName port] ++ ttlRuleBody)]
      ++ (nslist.filter (fun i => i.1 == AF_INET)).map
           (dnsRuleCmd dnsport (chainName port))
      ++ [Cmd.ipt false AF_INET "nat" (["-A", chainName port] ++ localRuleBody)]
      ++ (sortSubnetsDesc subnets).map (subnetRuleCmd port (chainName port))
      ++ [Cmd.ipt true AF_INET "nat"
            (["-A", chainName port] ++ llmnrRuleBody dnsport)] := by
  rw [show okBackend = staticBackend (fun _ => false) false from rfl,
    setup_static_eq (fun _ => false) false (fun _ _ _ _ => rfl)]
  cases user <;>
    simp [chainBody, setupEvents, restoreEventsIf, coreEvents,
      List.filterMap_append, chainBody_dns_seg, chainBody_subnet_seg,
      chainBodyPick, entryArgsOf, -List.filterMap_map]


theorem dnsRedirects_dns_seg (c : String) (dnsport : Nat)
    (l : List (Nat × String)) :
    (l.map (fun ns => Event.run (dnsRuleCmd dnsport c ns))).filterMap
      (dnsRedirectPick c) = l.map (fun ns => (ns.2 ++ "/32", toString dnsport)) :=
  seg_some _ _ _ _ (fun ns => by simp [dnsRedirectPick, dnsRuleCmd, dnsRuleBody])

theorem dnsRedirects_subnet_seg (c : String) (port : Nat)
    (l : List SubnetEntry) :
    (l.map (fun s => Event.run (subnetRuleCmd port c s))).filterMap
      (dnsRedirectPick c) = [] :=
  seg_none _ _ _ (fun s => by
    cases hs : s.sexclude <;> by_cases hp : s.fport = 0 <;>
      simp [dnsRedirectPick, subnetRuleCmd, subnetRuleBody, tcpPortArgs, hs, hp])

/-- Claim C7: for every policy, the UDP port-53 redirect rules setup
appends to its chain are exactly one per nameserver whose family
equals the policy's family, in order, each targeting that exact
nameserver address (as a /32 destination) and redirecting to
`dnsport`; nameservers of any other family produce no rule. -/
theorem dns_rules_match_family (port dnsport : Nat)
    (nslist : List (Nat × String)) (subnets : List SubnetEntry)
    (user : Option Nat) :
    dnsRedirects (chainName port)
      ((setup_firewall okBackend port dnsport nslist AF_INET subnets false
        user ⟨(), [], none⟩).trace) =
      (nslist.filter (fun i => i.1 == AF_INET)).map
        (fun ns => (ns.2 ++ "/32", toString dnsport)) := by
  rw [show okBackend = staticBackend (fun _ => false) false from rfl,
    setup_static_eq (fun _ => false) false (fun _ _ _ _ => rfl)]
  cases user <;>
    simp [dnsRedirects, setupEvents, restoreEventsIf, coreEvents,
      List.filterMap_append, dnsRedirects_dns_seg, dnsRedirects_subnet_seg,
      dnsRedirectPick, entryArgsOf, ttlRuleBody, localRuleBody, llmnrRuleBody,
      -List.filterMap_map]


/-- Claim C9 counterexample: a setup run that finds a pre-existing
chain issues teardown commands (OUTPUT/PREROUTING deletions, the chain
deletion, a second mangle command) outside the command shapes the
claim permits. -/
theorem setup_commands_outside_claimed_shapes :
    ((setup_firewall (staticBackend (fun _ => false) true) 12300 12301
        [(2, "10.0.0.1")] 2 [⟨2, 8, false, "10.0.0.0", 0, 0⟩] false
        (some 1000) ⟨(), [], none⟩).trace).all
      (claimEventOk 12300 (some 1000)) = false := by
  decide

/-- Claim C9 (amended): every rule command setup issues is either a
nat-table command targeting the per-instance chain (create, flush,
append, or delete) or an OUTPUT/PREROUTING position-1 insert or
deletion of a rule jumping to that chain; the only commands outside
the nat table are the mangle-table insert and (during the teardown
prefix) deletion of the per-user mark rule tagging with this
instance's port. -/
theorem setup_commands_namespaced (ex : Bool) (port dnsport : Nat)
    (nslist : List (Nat × String)) (subnets : List SubnetEntry)
    (user : Option Nat) :
    ((setup_firewall (staticBackend (fun _ => false) ex) port dnsport nslist
        AF_INET subnets false user ⟨(), [], none⟩).trace).all
      (amendedEventOk port) = true := by
  rw [setup_static_eq (fun _ => false) ex (fun _ _ _ _ => rfl)]
  cases user <;> cases ex <;>
    (simp [setupEvents, restoreEventsIf, restoreEvents, coreEvents,
       List.all_append, List.all_map, amendedEventOk, amendedNatCmdOk,
       entryArgsOf, markRuleArgs, List.isSuffixOf, List.isPrefixOf]
     constructor
     · rintro x x1 x2 hmem hfam rfl
       simp [dnsRuleCmd, dnsRuleBody, amendedNatCmdOk]
     · rintro s hs
       simp [subnetRuleCmd, amendedNatCmdOk])


theorem natInserts_dns_seg (c : String) (d : Nat) (l : List (Nat × String)) :
    (l.map (fun ns => Event.run (dnsRuleCmd d c ns))).filterMap natInsertPick
      = [] :=
  seg_none _ _ _ (fun ns => by simp [natInsertPick, dnsRuleCmd])

theorem natInserts_subnet_seg (c : String) (p : Nat) (l : List SubnetEntry) :
    (l.map (fun s => Event.run (subnetRuleCmd p c s))).filterMap natInsertPick
      = [] :=
  seg_none _ _ _ (fun s => by simp [natInsertPick, subnetRuleCmd])

theorem natDeletes_dns_seg (c : String) (d : Nat) (l : List (Nat × String)) :
    (l.map (fun ns => Event.run (dnsRuleCmd d c ns))).filterMap natDeletePick
      = [] :=
  seg_none _ _ _ (fun ns => by simp [natDeletePick, dnsRuleCmd])

theorem natDeletes_subnet_seg (c : String) (p : Nat) (l : List SubnetEntry) :
    (l.map (fun s => Event.run (subnetRuleCmd p c s))).filterMap natDeletePick
      = [] :=
  seg_none _ _ _ (fun s => by simp [natDeletePick, subnetRuleCmd])

theorem mangleInserts_dns_seg (c : String) (d : Nat) (l : List (Nat × String)) :
    (l.map (fun ns => Event.run (dnsRuleCmd d c ns))).filterMap mangleInsertPick
      = [] :=
  seg_none _ _ _ (fun ns => by simp [mangleInsertPick, dnsRuleCmd])

theorem mangleInserts_subnet_seg (c : String) (p : Nat) (l : List SubnetEntry) :
    (l.map (fun s => Event.run (subnetRuleCmd p c s))).filterMap mangleInsertPick
      = [] :=
  seg_none _ _ _ (fun s => by simp [mangleInsertPick, subnetRuleCmd])

/-- Claim C10 counterexample: a teardown invoked with the set user
2000 after a setup with the set user 1000 DOES construct entry-rule
delete specifications matching the installed entry rules — the
specification tails at lines 146/148 depend only on the port and on
whether a user is set, not on the uid — refuting the claim that any
differing user value yields non-matching deletes. -/
theorem teardown_other_uid_still_matches :
    (natDeletes (restoreTraceEx 12300 (some 2000))).map Prod.snd
      = (natInserts (setupTrace 12300 12301 [(2, "10.0.0.1")]
          [⟨2, 8, false, "10.0.0.0", 0, 0⟩] (some 1000))).map Prod.snd ∧
    (natDeletes (restoreTraceEx 12300 (some 2000))).map Prod.snd
      = [["-m", "mark", "--mark", "12300", "-j", "sshuttle-12300"],
         ["-m", "mark", "--mark", "12300", "-j", "sshuttle-12300"]] ∧
    (1000 : Nat) ≠ 2000 := by
  decide

/-- Claim C10 (amended): for every port and user, the rule
specifications teardown deletes (mark rule and OUTPUT/PREROUTING entry
rules) are identical, except for the flag and insertion-position
arguments, to those setup inserts; a teardown with `user = none`
constructs entry-rule delete specifications that do not match the
entry rules installed by a setup with a user set, while the entry-rule
delete specifications of a teardown with any set uid match those
installed by a setup with any set uid, since they depend only on the
port and on the setness of the user. -/
theorem teardown_specs_mirror_setup (port u u2 dnsport : Nat)
    (nslist : List (Nat × String)) (subnets : List SubnetEntry)
    (user : Option Nat) :
    (natInserts (setupTrace port dnsport nslist subnets user)).map Prod.fst
      = ["OUTPUT", "PREROUTING"] ∧
    (natDeletes (restoreTraceEx port user)).map Prod.fst
      = ["OUTPUT", "PREROUTING"] ∧
    (natInserts (setupTrace port dnsport nslist subnets user)).map Prod.snd
      = (natDeletes (restoreTraceEx port user)).map Prod.snd ∧
    (mangleInserts (setupTrace port dnsport nslist subnets user)).map Prod.snd
      = (mangleDeletes (restoreTraceEx port user)).map Prod.snd ∧
    (natDeletes (restoreTraceEx port none)).map Prod.snd
      ≠ (natInserts (setupTrace port dnsport nslist subnets (some u))).map
          Prod.snd ∧
    (natDeletes (restoreTraceEx port (some u2))).map Prod.snd
      = (natInserts (setupTrace port dnsport nslist subnets (some u))).map
          Prod.snd := by
  unfold setupTrace restoreTraceEx
  rw [show okBackend = staticBackend (fun _ => false) false from rfl,
    setup_static_eq (fun _ => false) false (fun _ _ _ _ => rfl) port dnsport
      nslist subnets user,
    setup_static_eq (fun _ => false) false (fun _ _ _ _ => rfl) port dnsport
      nslist subnets (some u),
    restore_static_eq (fun _ => false) true port user,
    restore_static_eq (fun _ => false) true port none,
    restore_static_eq (fun _ => false) true port (some u2)]
  refine ⟨?f1, ?f2, ?f3, ?f4, ?f5, ?f6⟩
  case f1 =>
    cases user <;>
      simp [natInserts, setupEvents, restoreEventsIf, coreEvents,
        List.filterMap_append, natInserts_dns_seg, natInserts_subnet_seg,
        natInsertPick, -List.filterMap_map]
  case f2 =>
    cases user <;>
      simp [natDeletes, restoreEventsIf, restoreEvents, List.filterMap_append,
        natDeletePick, -List.filterMap_map]
  case f3 =>
    cases user <;>
      simp [natInserts, natDeletes, setupEvents, restoreEventsIf,
        restoreEvents, coreEvents, List.filterMap_append, natInserts_dns_seg,
        natInserts_subnet_seg, natDeletes_dns_seg, natDeletes_subnet_seg,
        natInsertPick, natDeletePick, -List.filterMap_map]
  case f4 =>
    cases user <;>
      simp [mangleInserts, mangleDeletes, setupEvents, restoreEventsIf,
        restoreEvents, coreEvents, List.filterMap_append,
        mangleInserts_dns_seg, mangleInserts_subnet_seg, mangleInsertPick,
        mangleDeletePick, -List.filterMap_map]
  case f5 =>
    simp [natInserts, natDeletes, setupEvents, restoreEventsIf, restoreEvents,
      coreEvents, List.filterMap_append, natInserts_dns_seg,
      natInserts_subnet_seg, natDeletes_dns_seg, natDeletes_subnet_seg,
      natInsertPick, natDeletePick, entryArgsOf, -List.filterMap_map]
  case f6 =>
    simp [natInserts, natDeletes, setupEvents, restoreEventsIf, restoreEvents,
      coreEvents, List.filterMap_append, natInserts_dns_seg,
      natInserts_subnet_seg, natDeletes_dns_seg, natDeletes_subnet_seg,
      natInsertPick, natDeletePick, entryArgsOf, -List.filterMap_map]


theorem lookupChain_setChain_self (cs : Chains) (n : String) (v : List Rule) :
    lookupChain (setChain cs n v) n = (lookupChain cs n).map (fun _ => v) := by
  induction cs with
  | nil => rfl
  | cons c cs ih =>
    by_cases h : c.1 = n <;> simp [setChain, lookupChain, h, ih]

theorem lookupChain_setChain_ne (cs : Chains) {n m : String} (h : m ≠ n)
    (v : List Rule) :
    lookupChain (setChain cs n v) m = lookupChain cs m := by
  induction cs with
  | nil => rfl
  | cons c cs ih =>
    by_cases hc : c.1 = n
    · have hm : c.1 ≠ m := hc ▸ (Ne.symm h)
      simp [setChain, lookupChain, hc, hm, Ne.symm h, ih]
    · simp only [setChain, lookupChain, if_neg hc]
      by_cases hm : c.1 = m <;> simp [lookupChain, hm, ih]

theorem setChain_setChain_self (cs : Chains) (n : String) (v w : List Rule) :
    setChain (setChain cs n v) n w = setChain cs n w := by
  induction cs with
  | nil => rfl
  | cons c cs ih =>
    by_cases h : c.1 = n <;> simp [setChain, h, ih]

theorem setChain_comm (cs : Chains) {n m : String} (h : n ≠ m)
    (v w : List Rule) :
    setChain (setChain cs n v) m w = setChain (setChain cs m w) n v := by
  induction cs with
  | nil => rfl
  | cons c cs ih =>
    by_cases hn : c.1 = n
    · have hm : c.1 ≠ m := hn ▸ h
      simp [setChain, hn, hm, h, Ne.symm h, ih]
    · by_cases hm : c.1 = m <;>
        simp [setChain, hn, hm, h, Ne.symm h, ih]

theorem setChain_append (cs ds : Chains) (n : String) (v : List Rule) :
    setChain (cs ++ ds) n v = setChain cs n v ++ setChain ds n v := by
  induction cs with
  | nil => rfl
  | cons c cs ih => simp [setChain, ih]

theorem lookupChain_append_left {cs : Chains} {n : String} {v : List Rule}
    (ds : Chains) (h : lookupChain cs n = some v) :
    lookupChain (cs ++ ds) n = some v := by
  induction cs with
  | nil => simp [lookupChain] at h
  | cons c cs ih =>
    by_cases hc : c.1 = n <;> simp_all [lookupChain, hc]

theorem lookupChain_append_none {cs : Chains} {n : String} (ds : Chains)
    (h : lookupChain cs n = none) :
    lookupChain (cs ++ ds) n = lookupChain ds n := by
  induction cs with
  | nil => rfl
  | cons c cs ih =>
    by_cases hc : c.1 = n <;> simp_all [lookupChain, hc]

theorem setChain_of_none {cs : Chains} {n : String}
    (h : lookupChain cs n = none) (v : List Rule) : setChain cs n v = cs := by
  induction cs with
  | nil => rfl
  | cons c cs ih =>
    by_cases hc : c.1 = n <;> simp_all [lookupChain, setChain, hc]

theorem lookupChain_eq_none_of_not_mem {cs : Chains} {n : String}
    (h : n ∉ cs.map Prod.fst) : lookupChain cs n = none := by
  induction cs with
  | nil => rfl
  | cons c cs ih =>
    simp only [List.map_cons, List.mem_cons, not_or] at h
    have hcn : c.1 ≠ n := fun he => h.1 he.symm
    simp [lookupChain, hcn, ih h.2]

theorem setChain_of_lookup_eq {cs : Chains} {n : String} {v : List Rule}
    (hnd : (cs.map Prod.fst).Nodup) (h : lookupChain cs n = some v) :
    setChain cs n v = cs := by
  induction cs with
  | nil => rfl
  | cons c cs ih =>
    simp only [List.map_cons, List.nodup_cons] at hnd
    by_cases hc : c.1 = n
    · simp only [lookupChain, if_pos hc] at h
      have hv : c.2 = v := Option.some.inj h
      have hnone : lookupChain cs n = none :=
        lookupChain_eq_none_of_not_mem (hc ▸ hnd.1)
      have hcv : (n, v) = c := by rw [← hc, ← hv]
      simp [setChain, hc, hcv, setChain_of_none hnone]
    · simp only [lookupChain, if_neg hc] at h
      simp [setChain, hc, ih hnd.2 h]

theorem delChain_of_none {cs : Chains} {n : String}
    (h : lookupChain cs n = none) : delChain cs n = cs := by
  induction cs with
  | nil => rfl
  | cons c cs ih =>
    by_cases hc : c.1 = n
    · simp [lookupChain, hc] at h
    · simp only [lookupChain, if_neg hc] at h
      have hp : (c.1 != n) = true := by simp [hc]
      show List.filter (fun x => x.1 != n) (c :: cs) = c :: cs
      rw [List.filter_cons, if_pos hp]
      exact congrArg (List.cons c) (ih h)

theorem delChain_append_single {cs : Chains} {n : String}
    (h : lookupChain cs n = none) (rs : List Rule) :
    delChain (cs ++ [(n, rs)]) n = cs := by
  have h1 := delChain_of_none h
  simp only [delChain, List.filter_append] at h1 ⊢
  rw [h1]
  simp

theorem chainName_ne_OUTPUT (port : Nat) : chainName port ≠ "OUTPUT" := by
  intro h
  have h2 := congrArg String.data h
  rw [chainName, String.data_append] at h2
  rw [show "sshuttle-".data = ['s','s','h','u','t','t','l','e','-'] from rfl,
    show "OUTPUT".data = ['O','U','T','P','U','T'] from rfl] at h2
  simp at h2

theorem chainName_ne_PREROUTING (port : Nat) :
    chainName port ≠ "PREROUTING" := by
  intro h
  have h2 := congrArg String.data h
  rw [chainName, String.data_append] at h2
  rw [show "sshuttle-".data = ['s','s','h','u','t','t','l','e','-'] from rfl,
    show "PREROUTING".data = ['P','R','E','R','O','U','T','I','N','G'] from rfl]
    at h2
  simp at h2


theorem execChains_new {cs : Chains} {c : String}
    (h : lookupChain cs c = none) :
    execChains cs ["-N", c] = some (cs ++ [(c, [])]) := by
  simp [execChains, h]

theorem execChains_flush {cs : Chains} {c : String} {rs : List Rule}
    (h : lookupChain cs c = some rs) :
    execChains cs ["-F", c] = some (setChain cs c []) := by
  simp [execChains, h]

theorem execChains_append {cs : Chains} {c : String} {rs : List Rule}
    (h : lookupChain cs c = some rs) (rest : List String) :
    execChains cs ("-A" :: c :: rest) = some (setChain cs c (rs ++ [rest])) := by
  simp [execChains, h]

theorem execChains_insert1 {cs : Chains} {c : String} {rs : List Rule}
    (h : lookupChain cs c = some rs) (rest : List String) :
    execChains cs ("-I" :: c :: "1" :: rest) = some (setChain cs c (rest :: rs)) := by
  simp [execChains, h]

theorem execChains_deleteHead {cs : Chains} {c : String} {r : Rule}
    {rs : List Rule} (h : lookupChain cs c = some (r :: rs)) :
    execChains cs ("-D" :: c :: r) = some (setChain cs c rs) := by
  simp [execChains, h, removeFirst]

theorem execChains_x {cs : Chains} {c : String}
    (h : lookupChain cs c = some []) (h2 : referenced (delChain cs c) c = false) :
    execChains cs ["-X", c] = some (delChain cs c) := by
  simp [execChains, h, h2]

theorem runIpt_nat_ok {ttl : Bool} {args : List String} {A A2 M : Chains}
    {tr : List Event} (h : execChains A args = some A2) :
    runIpt iptablesBackend ttl AF_INET "nat" args ⟨⟨A, M⟩, tr, none⟩ =
      ⟨⟨A2, M⟩, tr ++ [Event.run (Cmd.ipt ttl AF_INET "nat" args)], none⟩ := by
  simp [runIpt, iptablesBackend, IptState.exec, h]

theorem runIpt_mangle_ok {ttl : Bool} {args : List String} {A M M2 : Chains}
    {tr : List Event} (h : execChains M args = some M2) :
    runIpt iptablesBackend ttl AF_INET "mangle" args ⟨⟨A, M⟩, tr, none⟩ =
      ⟨⟨A, M2⟩, tr ++ [Event.run (Cmd.ipt ttl AF_INET "mangle" args)], none⟩ := by
  simp [runIpt, iptablesBackend, IptState.exec, h]

theorem dnsLoop_ipt (dnsport : Nat) (chain : String) (l : List (Nat × String))
    (A M : Chains) (rs : List Rule) (tr : List Event)
    (h : lookupChain A chain = none) :
    dnsLoop iptablesBackend AF_INET dnsport chain l
      ⟨⟨A ++ [(chain, rs)], M⟩, tr, none⟩ =
      ⟨⟨A ++ [(chain, rs ++ l.map (dnsRuleBody dnsport))], M⟩,
       tr ++ l.map (fun ns => Event.run (dnsRuleCmd dnsport chain ns)),
       none⟩ := by
  induction l generalizing rs tr with
  | nil => simp [dnsLoop]
  | cons ns rest ih =>
    rw [dnsLoop]
    have hl : lookupChain (A ++ [(chain, rs)]) chain = some rs := by
      rw [lookupChain_append_none _ h]
      simp [lookupChain]
    rw [runIpt_nat_ok (execChains_append hl _)]
    rw [setChain_append, setChain_of_none h]
    have hset : ∀ r : List String,
        setChain [(chain, rs)] chain (rs ++ [r]) = [(chain, rs ++ [r])] := by
      intro r
      simp [setChain]
    rw [hset, ih]
    simp [dnsRuleCmd, dnsRuleBody]

theorem subnetLoop_ipt (port : Nat) (chain : String) (l : List SubnetEntry)
    (A M : Chains) (rs : List Rule) (tr : List Event)
    (h : lookupChain A chain = none) :
    subnetLoop iptablesBackend AF_INET port chain l
      ⟨⟨A ++ [(chain, rs)], M⟩, tr, none⟩ =
      ⟨⟨A ++ [(chain, rs ++ l.map (subnetRuleBody port))], M⟩,
       tr ++ l.map (fun s => Event.run (subnetRuleCmd port chain s)),
       none⟩ := by
  induction l generalizing rs tr with
  | nil => simp [subnetLoop]
  | cons s rest ih =>
    rw [subnetLoop]
    have hl : lookupChain (A ++ [(chain, rs)]) chain = some rs := by
      rw [lookupChain_append_none _ h]
      simp [lookupChain]
    have hset : ∀ r : List String,
        setChain (A ++ [(chain, rs)]) chain (rs ++ [r])
        = A ++ [(chain, rs ++ [r])] := by
      intro r
      rw [setChain_append, setChain_of_none h]
      simp [setChain]
    cases hs : s.sexclude <;> by_cases hp : s.fport = 0 <;>
      (simp only [hs, hp, Bool.false_eq_true, if_false, if_true, reduceIte,
         ne_eq, not_true_eq_false, not_false_eq_true, List.cons_append,
         List.nil_append]
       rw [runIpt_nat_ok (execChains_append hl _), hset, ih]
       simp [subnetRuleCmd, subnetRuleBody, tcpPortArgs, hs, hp])


theorem runConntrack_ipt (args : List String) (s : IptState) (tr : List Event) :
    runConntrack iptablesBackend args ⟨s, tr, none⟩ =
      ⟨s, tr ++ [Event.run (Cmd.conntrack args)], none⟩ := by
  simp [runConntrack, iptablesBackend, IptState.exec]

theorem setChainK_OUTPUT (K : String) (hKO : K ≠ "OUTPUT") (rs v : List Rule) :
    setChain [(K, rs)] "OUTPUT" v = [(K, rs)] := by
  simp [setChain, hKO]

theorem setChainK_PREROUTING (K : String) (hKP : K ≠ "PREROUTING")
    (rs v : List Rule) :
    setChain [(K, rs)] "PREROUTING" v = [(K, rs)] := by
  simp [setChain, hKP]

theorem core_ipt_none (port dnsport : Nat) (nslist : List (Nat × String))
    (subnets : List SubnetEntry) (N0 M0 : Chains)
    (o pr : List Rule) (tr : List Event)
    (hO : lookupChain N0 "OUTPUT" = some o)
    (hP : lookupChain N0 "PREROUTING" = some pr)
    (hK : lookupChain N0 (chainName port) = none) :
    setup_core iptablesBackend port dnsport nslist AF_INET subnets none
      ⟨⟨N0, M0⟩, tr, none⟩ =
      ⟨⟨setChain (setChain N0 "OUTPUT" (entryArgsOf port none :: o))
          "PREROUTING" (entryArgsOf port none :: pr)
        ++ [(chainName port, chainBodyRules port dnsport nslist subnets)], M0⟩,
       tr ++ coreEvents port dnsport nslist subnets none, none⟩ := by
  have hKO := chainName_ne_OUTPUT port
  have hKP := chainName_ne_PREROUTING port
  have hK2 := hK
  simp only [setup_core]
  set K := chainName port with hKdef
  -- step -N
  have h1 : execChains N0 ["-N", K] = some (N0 ++ [(K, [])]) := execChains_new hK2
  -- step -F
  have hl1 : lookupChain (N0 ++ [(K, [])]) K = some [] := by
    rw [lookupChain_append_none _ hK2]
    simp [lookupChain]
  have h2 : execChains (N0 ++ [(K, [])]) ["-F", K] = some (N0 ++ [(K, [])]) := by
    rw [execChains_flush hl1, setChain_append, setChain_of_none hK2]
    simp [setChain]
  -- step -I OUTPUT 1
  have hl2 : lookupChain (N0 ++ [(K, [])]) "OUTPUT" = some o :=
    lookupChain_append_left _ hO
  have h3 : execChains (N0 ++ [(K, [])]) ["-I", "OUTPUT", "1", "-j", K] =
      some (setChain N0 "OUTPUT" (["-j", K] :: o) ++ [(K, [])]) := by
    rw [show (["-I", "OUTPUT", "1", "-j", K] : List String)
        = "-I" :: "OUTPUT" :: "1" :: ["-j", K] from rfl]
    rw [execChains_insert1 hl2, setChain_append, setChainK_OUTPUT K hKO]
  -- step -I PREROUTING 1
  have hl3 : lookupChain (setChain N0 "OUTPUT" (["-j", K] :: o) ++ [(K, [])])
      "PREROUTING" = some pr := by
    refine lookupChain_append_left _ ?h
    rw [lookupChain_setChain_ne _ (by decide)]
    exact hP
  have h4 : execChains (setChain N0 "OUTPUT" (["-j", K] :: o) ++ [(K, [])])
      ["-I", "PREROUTING", "1", "-j", K] =
      some (setChain (setChain N0 "OUTPUT" (["-j", K] :: o)) "PREROUTING"
              (["-j", K] :: pr) ++ [(K, [])]) := by
    rw [show (["-I", "PREROUTING", "1", "-j", K] : List String)
        = "-I" :: "PREROUTING" :: "1" :: ["-j", K] from rfl]
    rw [execChains_insert1 hl3, setChain_append, setChainK_PREROUTING K hKP]
  set A2 := setChain (setChain N0 "OUTPUT" (["-j", K] :: o)) "PREROUTING"
    (["-j", K] :: pr) with hA2def
  have hA2K : lookupChain A2 K = none := by
    rw [hA2def, lookupChain_setChain_ne _ hKP, lookupChain_setChain_ne _ hKO]
    exact hK2
  have hset : ∀ (rs : List Rule) (r : Rule),
      setChain (A2 ++ [(K, rs)]) K (rs ++ [r]) = A2 ++ [(K, rs ++ [r])] := by
    intro rs r
    rw [setChain_append, setChain_of_none hA2K]
    simp [setChain]
  have hlA2 : ∀ rs : List Rule, lookupChain (A2 ++ [(K, rs)]) K = some rs := by
    intro rs
    rw [lookupChain_append_none _ hA2K]
    simp [lookupChain]
  -- step ttl append
  have h5 : execChains (A2 ++ [(K, [])])
      ["-A", K, "-j", "RETURN", "-m", "ttl", "--ttl", "63"] =
      some (A2 ++ [(K, [ttlRuleBody])]) := by
    rw [show (["-A", K, "-j", "RETURN", "-m", "ttl", "--ttl", "63"] : List String)
        = "-A" :: K :: ttlRuleBody from rfl]
    rw [execChains_append (hlA2 []) _]
    exact congrArg some (hset [] ttlRuleBody)
  -- step local append
  have h6 : ∀ rs : List Rule, execChains (A2 ++ [(K, rs)])
      ["-A", K, "-j", "RETURN", "-m", "addrtype", "--dst-type", "LOCAL"] =
      some (A2 ++ [(K, rs ++ [localRuleBody])]) := by
    intro rs
    rw [show (["-A", K, "-j", "RETURN", "-m", "addrtype", "--dst-type",
        "LOCAL"] : List String) = "-A" :: K :: localRuleBody from rfl]
    rw [execChains_append (hlA2 rs) _]
    exact congrArg some (hset rs localRuleBody)
  -- step llmnr append
  have h7 : ∀ rs : List Rule, execChains (A2 ++ [(K, rs)])
      ["-A", K, "-j", "REDIRECT", "--dest", "224.0.0.252/32", "-p", "udp",
       "--dport", "5355", "--to-ports", toString dnsport] =
      some (A2 ++ [(K, rs ++ [llmnrRuleBody dnsport])]) := by
    intro rs
    rw [show (["-A", K, "-j", "REDIRECT", "--dest", "224.0.0.252/32", "-p",
        "udp", "--dport", "5355", "--to-ports", toString dnsport] : List String)
        = "-A" :: K :: llmnrRuleBody dnsport from rfl]
    rw [execChains_append (hlA2 rs) _]
    exact congrArg some (hset rs (llmnrRuleBody dnsport))
  rw [runIpt_nat_ok h1, runIpt_nat_ok h2]
  simp only [List.cons_append, List.nil_append]
  rw [runIpt_nat_ok h3, runIpt_nat_ok h4]
  rw [runIpt_nat_ok h5]
  rw [dnsLoop_ipt dnsport K _ A2 M0 [ttlRuleBody] _ hA2K]
  rw [runIpt_nat_ok (h6 _)]
  rw [subnetLoop_ipt port K _ A2 M0 _ _ hA2K]
  rw [runIpt_nat_ok (h7 _)]
  rw [runConntrack_ipt]
  simp [coreEvents, chainBodyRules, entryArgsOf, dnsRuleCmd, subnetRuleCmd,
    ttlRuleBody, localRuleBody, llmnrRuleBody, dnsRuleBody]


theorem core_ipt_some (port dnsport : Nat) (u : Nat)
    (nslist : List (Nat × String)) (subnets : List SubnetEntry)
    (N0 M0 : Chains) (o pr mo : List Rule) (tr : List Event)
    (hO : lookupChain N0 "OUTPUT" = some o)
    (hP : lookupChain N0 "PREROUTING" = some pr)
    (hM : lookupChain M0 "OUTPUT" = some mo)
    (hK : lookupChain N0 (chainName port) = none) :
    setup_core iptablesBackend port dnsport nslist AF_INET subnets (some u)
      ⟨⟨N0, M0⟩, tr, none⟩ =
      ⟨⟨setChain (setChain N0 "OUTPUT" (entryArgsOf port (some u) :: o))
          "PREROUTING" (entryArgsOf port (some u) :: pr)
        ++ [(chainName port, chainBodyRules port dnsport nslist subnets)],
        setChain M0 "OUTPUT" (markRuleArgs port u :: mo)⟩,
       tr ++ coreEvents port dnsport nslist subnets (some u), none⟩ := by
  have hKO := chainName_ne_OUTPUT port
  have hKP := chainName_ne_PREROUTING port
  have hK2 := hK
  simp only [setup_core]
  set K := chainName port with hKdef
  set E : List String := ["-m", "mark", "--mark", toString port, "-j", K]
    with hEdef
  set M1 := setChain M0 "OUTPUT" (markRuleArgs port u :: mo) with hM1def
  -- step -N
  have h1 : execChains N0 ["-N", K] = some (N0 ++ [(K, [])]) := execChains_new hK2
  -- step -F
  have hl1 : lookupChain (N0 ++ [(K, [])]) K = some [] := by
    rw [lookupChain_append_none _ hK2]
    simp [lookupChain]
  have h2 : execChains (N0 ++ [(K, [])]) ["-F", K] = some (N0 ++ [(K, [])]) := by
    rw [execChains_flush hl1, setChain_append, setChain_of_none hK2]
    simp [setChain]
  -- mangle mark insert
  have hm1 : execChains M0 ["-I", "OUTPUT", "1", "-m", "owner", "--uid-owner",
      toString u, "-j", "MARK", "--set-mark", toString port] = some M1 := by
    rw [show (["-I", "OUTPUT", "1", "-m", "owner", "--uid-owner", toString u,
        "-j", "MARK", "--set-mark", toString port] : List String)
        = "-I" :: "OUTPUT" :: "1" :: markRuleArgs port u from rfl]
    rw [execChains_insert1 hM]
  -- step -I OUTPUT 1
  have hl2 : lookupChain (N0 ++ [(K, [])]) "OUTPUT" = some o :=
    lookupChain_append_left _ hO
  have h3 : execChains (N0 ++ [(K, [])])
      ["-I", "OUTPUT", "1", "-m", "mark", "--mark", toString port, "-j", K] =
      some (setChain N0 "OUTPUT" (E :: o) ++ [(K, [])]) := by
    rw [show (["-I", "OUTPUT", "1", "-m", "mark", "--mark", toString port,
        "-j", K] : List String) = "-I" :: "OUTPUT" :: "1" :: E from rfl]
    rw [execChains_insert1 hl2, setChain_append, setChainK_OUTPUT K hKO]
  -- step -I PREROUTING 1
  have hl3 : lookupChain (setChain N0 "OUTPUT" (E :: o) ++ [(K, [])])
      "PREROUTING" = some pr := by
    refine lookupChain_append_left _ ?h
    rw [lookupChain_setChain_ne _ (by decide)]
    exact hP
  have h4 : execChains (setChain N0 "OUTPUT" (E :: o) ++ [(K, [])])
      ["-I", "PREROUTING", "1", "-m", "mark", "--mark", toString port,
       "-j", K] =
      some (setChain (setChain N0 "OUTPUT" (E :: o)) "PREROUTING"
              (E :: pr) ++ [(K, [])]) := by
    rw [show (["-I", "PREROUTING", "1", "-m", "mark", "--mark", toString port,
        "-j", K] : List String) = "-I" :: "PREROUTING" :: "1" :: E from rfl]
    rw [execChains_insert1 hl3, setChain_append, setChainK_PREROUTING K hKP]
  set A2 := setChain (setChain N0 "OUTPUT" (E :: o)) "PREROUTING" (E :: pr)
    with hA2def
  have hA2K : lookupChain A2 K = none := by
    rw [hA2def, lookupChain_setChain_ne _ hKP, lookupChain_setChain_ne _ hKO]
    exact hK2
  have hset : ∀ (rs : List Rule) (r : Rule),
      setChain (A2 ++ [(K, rs)]) K (rs ++ [r]) = A2 ++ [(K, rs ++ [r])] := by
    intro rs r
    rw [setChain_append, setChain_of_none hA2K]
    simp [setChain]
  have hlA2 : ∀ rs : List Rule, lookupChain (A2 ++ [(K, rs)]) K = some rs := by
    intro rs
    rw [lookupChain_append_none _ hA2K]
    simp [lookupChain]
  have h5 : execChains (A2 ++ [(K, [])])
      ["-A", K, "-j", "RETURN", "-m", "ttl", "--ttl", "63"] =
      some (A2 ++ [(K, [ttlRuleBody])]) := by
    rw [show (["-A", K, "-j", "RETURN", "-m", "ttl", "--ttl", "63"] : List String)
        = "-A" :: K :: ttlRuleBody from rfl]
    rw [execChains_append (hlA2 []) _]
    exact congrArg some (hset [] ttlRuleBody)
  have h6 : ∀ rs : List Rule, execChains (A2 ++ [(K, rs)])
      ["-A", K, "-j", "RETURN", "-m", "addrtype", "--dst-type", "LOCAL"] =
      some (A2 ++ [(K, rs ++ [localRuleBody])]) := by
    intro rs
    rw [show (["-A", K, "-j", "RETURN", "-m", "addrtype", "--dst-type",
        "LOCAL"] : List String) = "-A" :: K :: localRuleBody from rfl]
    rw [execChains_append (hlA2 rs) _]
    exact congrArg some (hset rs localRuleBody)
  have h7 : ∀ rs : List Rule, execChains (A2 ++ [(K, rs)])
      ["-A", K, "-j", "REDIRECT", "--dest", "224.0.0.252/32", "-p", "udp",
       "--dport", "5355", "--to-ports", toString dnsport] =
      some (A2 ++ [(K, rs ++ [llmnrRuleBody dnsport])]) := by
    intro rs
    rw [show (["-A", K, "-j", "REDIRECT", "--dest", "224.0.0.252/32", "-p",
        "udp", "--dport", "5355", "--to-ports", toString dnsport] : List String)
        = "-A" :: K :: llmnrRuleBody dnsport from rfl]
    rw [execChains_append (hlA2 rs) _]
    exact congrArg some (hset rs (llmnrRuleBody dnsport))
  rw [runIpt_nat_ok h1, runIpt_nat_ok h2]
  rw [runIpt_mangle_ok hm1]
  simp only [List.cons_append, List.nil_append]
  rw [runIpt_nat_ok h3, runIpt_nat_ok h4]
  rw [runIpt_nat_ok h5]
  rw [dnsLoop_ipt dnsport K _ A2 M1 [ttlRuleBody] _ hA2K]
  rw [runIpt_nat_ok (h6 _)]
  rw [subnetLoop_ipt port K _ A2 M1 _ _ hA2K]
  rw [runIpt_nat_ok (h7 _)]
  rw [runConntrack_ipt]
  simp [coreEvents, chainBodyRules, entryArgsOf, markRuleArgs, dnsRuleCmd,
    subnetRuleCmd, ttlRuleBody, localRuleBody, llmnrRuleBody, dnsRuleBody]

theorem core_ipt (port dnsport : Nat) (nslist : List (Nat × String))
    (subnets : List SubnetEntry) (user : Option Nat) (N0 M0 : Chains)
    (o pr mo : List Rule) (tr : List Event)
    (hO : lookupChain N0 "OUTPUT" = some o)
    (hP : lookupChain N0 "PREROUTING" = some pr)
    (hM : lookupChain M0 "OUTPUT" = some mo)
    (hK : lookupChain N0 (chainName port) = none) :
    setup_core iptablesBackend port dnsport nslist AF_INET subnets user
      ⟨⟨N0, M0⟩, tr, none⟩ =
      ⟨coreResultState ⟨N0, M0⟩ port dnsport nslist subnets user o pr mo,
       tr ++ coreEvents port dnsport nslist subnets user, none⟩ := by
  cases user with
  | none =>
    rw [core_ipt_none port dnsport nslist subnets N0 M0 o pr tr hO hP hK]
    simp [coreResultState]
  | some u =>
    rw [core_ipt_some port dnsport u nslist subnets N0 M0 o pr mo tr hO hP hM hK]
    simp [coreResultState]


theorem nonfatalRun_ok {σ : Type} (act : St σ → St σ) (st st' : St σ)
    (h : act st = st') (h2 : st.err = none) (h3 : st'.err = none) :
    nonfatalRun act st = st' := by
  rw [nonfatalRun_none act st h2, h]
  exact St.withErrNone st' h3

theorem restore_inverts_none (port dnsport : Nat)
    (nslist : List (Nat × String)) (subnets : List SubnetEntry)
    (N0 M0 : Chains) (o pr mo : List Rule) (tr : List Event)
    (hO : lookupChain N0 "OUTPUT" = some o)
    (hP : lookupChain N0 "PREROUTING" = some pr)
    (hK : lookupChain N0 (chainName port) = none)
    (hR : referenced N0 (chainName port) = false)
    (hN : (N0.map Prod.fst).Nodup) :
    restore_firewall iptablesBackend port AF_INET false none
      ⟨coreResultState ⟨N0, M0⟩ port dnsport nslist subnets none o pr mo,
       tr, none⟩ =
      ⟨⟨N0, M0⟩, tr ++ restoreEvents port none, none⟩ := by
  have hKO := chainName_ne_OUTPUT port
  have hKP := chainName_ne_PREROUTING port
  have hK2 := hK
  simp only [restore_firewall, coreResultState, entryArgsOf, queryChainExists]
  set K := chainName port with hKdef
  set E : List String := ["-j", K] with hEdef
  set A2 := setChain (setChain N0 "OUTPUT" (E :: o)) "PREROUTING" (E :: pr)
    with hA2def
  set body := chainBodyRules port dnsport nslist subnets with hbodydef
  have hA2K : lookupChain A2 K = none := by
    rw [hA2def, lookupChain_setChain_ne _ hKP, lookupChain_setChain_ne _ hKO]
    exact hK2
  have hlK : lookupChain (A2 ++ [(K, body)]) K = some body := by
    rw [lookupChain_append_none _ hA2K]
    simp [lookupChain]
  have hex : iptablesBackend.chainExists ⟨A2 ++ [(K, body)], M0⟩ AF_INET "nat" K
      = true := by
    simp [iptablesBackend, hlK]
  -- delete the OUTPUT entry rule
  have hAO : lookupChain A2 "OUTPUT" = some (E :: o) := by
    rw [hA2def, lookupChain_setChain_ne _ (by decide),
      lookupChain_setChain_self, hO]
    rfl
  have hlO : lookupChain (A2 ++ [(K, body)]) "OUTPUT" = some (E :: o) :=
    lookupChain_append_left _ hAO
  have hd1 : execChains (A2 ++ [(K, body)]) ("-D" :: "OUTPUT" :: E) =
      some (setChain N0 "PREROUTING" (E :: pr) ++ [(K, body)]) := by
    rw [execChains_deleteHead hlO, setChain_append, setChainK_OUTPUT K hKO]
    rw [hA2def, setChain_comm _ (by decide : "PREROUTING" ≠ "OUTPUT"),
      setChain_setChain_self, setChain_of_lookup_eq hN hO]
  -- delete the PREROUTING entry rule
  have hAP : lookupChain (setChain N0 "PREROUTING" (E :: pr)) "PREROUTING"
      = some (E :: pr) := by
    rw [lookupChain_setChain_self, hP]
    rfl
  have hlP : lookupChain (setChain N0 "PREROUTING" (E :: pr) ++ [(K, body)])
      "PREROUTING" = some (E :: pr) :=
    lookupChain_append_left _ hAP
  have hd2 : execChains (setChain N0 "PREROUTING" (E :: pr) ++ [(K, body)])
      ("-D" :: "PREROUTING" :: E) = some (N0 ++ [(K, body)]) := by
    rw [execChains_deleteHead hlP, setChain_append, setChainK_PREROUTING K hKP]
    rw [setChain_setChain_self, setChain_of_lookup_eq hN hP]
  -- flush the chain
  have hlK2 : lookupChain (N0 ++ [(K, body)]) K = some body := by
    rw [lookupChain_append_none _ hK2]
    simp [lookupChain]
  have hd3 : execChains (N0 ++ [(K, body)]) ["-F", K] =
      some (N0 ++ [(K, [])]) := by
    rw [execChains_flush hlK2, setChain_append, setChain_of_none hK2]
    simp [setChain]
  -- delete the chain
  have hlK3 : lookupChain (N0 ++ [(K, [])]) K = some [] := by
    rw [lookupChain_append_none _ hK2]
    simp [lookupChain]
  have hdel : delChain (N0 ++ [(K, [])]) K = N0 := delChain_append_single hK2 []
  have hd4 : execChains (N0 ++ [(K, [])]) ["-X", K] = some N0 := by
    rw [execChains_x hlK3 (by rw [hdel]; exact hR)]
    exact congrArg some hdel
  rw [hex]
  rw [if_neg (fun h : AF_INET ≠ AF_INET => h rfl), if_neg Bool.false_ne_true]
  simp only [if_true, reduceIte, List.cons_append, List.nil_append]
  rw [nonfatalRun_ok _ _ _ (runIpt_nat_ok hd1) rfl rfl]
  rw [nonfatalRun_ok _ _ _ (runIpt_nat_ok hd2) rfl rfl]
  rw [nonfatalRun_ok _ _ _ (runIpt_nat_ok hd3) rfl rfl]
  rw [runIpt_nat_ok hd4]
  simp [restoreEvents, entryArgsOf]


theorem restore_inverts_some (port dnsport : Nat) (u : Nat)
    (nslist : List (Nat × String)) (subnets : List SubnetEntry)
    (N0 M0 : Chains) (o pr mo : List Rule) (tr : List Event)
    (hO : lookupChain N0 "OUTPUT" = some o)
    (hP : lookupChain N0 "PREROUTING" = some pr)
    (hM : lookupChain M0 "OUTPUT" = some mo)
    (hK : lookupChain N0 (chainName port) = none)
    (hR : referenced N0 (chainName port) = false)
    (hN : (N0.map Prod.fst).Nodup)
    (hNm : (M0.map Prod.fst).Nodup) :
    restore_firewall iptablesBackend port AF_INET false (some u)
      ⟨coreResultState ⟨N0, M0⟩ port dnsport nslist subnets (some u) o pr mo,
       tr, none⟩ =
      ⟨⟨N0, M0⟩, tr ++ restoreEvents port (some u), none⟩ := by
  have hKO := chainName_ne_OUTPUT port
  have hKP := chainName_ne_PREROUTING port
  have hK2 := hK
  simp only [restore_firewall, coreResultState, entryArgsOf, queryChainExists]
  set K := chainName port with hKdef
  set E : List String := ["-m", "mark", "--mark", toString port, "-j", K]
    with hEdef
  set A2 := setChain (setChain N0 "OUTPUT" (E :: o)) "PREROUTING" (E :: pr)
    with hA2def
  set body := chainBodyRules port dnsport nslist subnets with hbodydef
  set M1 := setChain M0 "OUTPUT" (markRuleArgs port u :: mo) with hM1def
  have hA2K : lookupChain A2 K = none := by
    rw [hA2def, lookupChain_setChain_ne _ hKP, lookupChain_setChain_ne _ hKO]
    exact hK2
  have hlK : lookupChain (A2 ++ [(K, body)]) K = some body := by
    rw [lookupChain_append_none _ hA2K]
    simp [lookupChain]
  have hex : iptablesBackend.chainExists ⟨A2 ++ [(K, body)], M1⟩ AF_INET "nat" K
      = true := by
    simp [iptablesBackend, hlK]
  -- delete the mark rule from the mangle table
  have hlM : lookupChain M1 "OUTPUT" = some (markRuleArgs port u :: mo) := by
    rw [hM1def, lookupChain_setChain_self, hM]
    rfl
  have hdm : execChains M1 ("-D" :: "OUTPUT" :: markRuleArgs port u) =
      some M0 := by
    rw [execChains_deleteHead hlM, hM1def, setChain_setChain_self,
      setChain_of_lookup_eq hNm hM]
  -- delete the OUTPUT entry rule
  have hAO : lookupChain A2 "OUTPUT" = some (E :: o) := by
    rw [hA2def, lookupChain_setChain_ne _ (by decide),
      lookupChain_setChain_self, hO]
    rfl
  have hlO : lookupChain (A2 ++ [(K, body)]) "OUTPUT" = some (E :: o) :=
    lookupChain_append_left _ hAO
  have hd1 : execChains (A2 ++ [(K, body)]) ("-D" :: "OUTPUT" :: E) =
      some (setChain N0 "PREROUTING" (E :: pr) ++ [(K, body)]) := by
    rw [execChains_deleteHead hlO, setChain_append, setChainK_OUTPUT K hKO]
    rw [hA2def, setChain_comm _ (by decide : "PREROUTING" ≠ "OUTPUT"),
      setChain_setChain_self, setChain_of_lookup_eq hN hO]
  -- delete the PREROUTING entry rule
  have hAP : lookupChain (setChain N0 "PREROUTING" (E :: pr)) "PREROUTING"
      = some (E :: pr) := by
    rw [lookupChain_setChain_self, hP]
    rfl
  have hlP : lookupChain (setChain N0 "PREROUTING" (E :: pr) ++ [(K, body)])
      "PREROUTING" = some (E :: pr) :=
    lookupChain_append_left _ hAP
  have hd2 : execChains (setChain N0 "PREROUTING" (E :: pr) ++ [(K, body)])
      ("-D" :: "PREROUTING" :: E) = some (N0 ++ [(K, body)]) := by
    rw [execChains_deleteHead hlP, setChain_append, setChainK_PREROUTING K hKP]
    rw [setChain_setChain_self, setChain_of_lookup_eq hN hP]
  -- flush the chain
  have hlK2 : lookupChain (N0 ++ [(K, body)]) K = some body := by
    rw [lookupChain_append_none _ hK2]
    simp [lookupChain]
  have hd3 : execChains (N0 ++ [(K, body)]) ["-F", K] =
      some (N0 ++ [(K, [])]) := by
    rw [execChains_flush hlK2, setChain_append, setChain_of_none hK2]
    simp [setChain]
  -- delete the chain
  have hlK3 : lookupChain (N0 ++ [(K, [])]) K = some [] := by
    rw [lookupChain_append_none _ hK2]
    simp [lookupChain]
  have hdel : delChain (N0 ++ [(K, [])]) K = N0 := delChain_append_single hK2 []
  have hd4 : execChains (N0 ++ [(K, [])]) ["-X", K] = some N0 := by
    rw [execChains_x hlK3 (by rw [hdel]; exact hR)]
    exact congrArg some hdel
  rw [hex]
  rw [if_neg (fun h : AF_INET ≠ AF_INET => h rfl), if_neg Bool.false_ne_true]
  simp only [if_true, reduceIte, List.cons_append, List.nil_append]
  rw [show (["-D", "OUTPUT", "-m", "owner", "--uid-owner", toString u, "-j",
      "MARK", "--set-mark", toString port] : List String)
      = "-D" :: "OUTPUT" :: markRuleArgs port u from rfl]
  rw [nonfatalRun_ok _ _ _ (runIpt_mangle_ok hdm) rfl rfl]
  rw [nonfatalRun_ok _ _ _ (runIpt_nat_ok hd1) rfl rfl]
  rw [nonfatalRun_ok _ _ _ (runIpt_nat_ok hd2) rfl rfl]
  rw [nonfatalRun_ok _ _ _ (runIpt_nat_ok hd3) rfl rfl]
  rw [runIpt_nat_ok hd4]
  simp [restoreEvents, entryArgsOf, markRuleArgs]


theorem restore_inverts (port dnsport : Nat) (nslist : List (Nat × String))
    (subnets : List SubnetEntry) (user : Option Nat) (N0 M0 : Chains)
    (o pr mo : List Rule) (tr : List Event)
    (hO : lookupChain N0 "OUTPUT" = some o)
    (hP : lookupChain N0 "PREROUTING" = some pr)
    (hM : lookupChain M0 "OUTPUT" = some mo)
    (hK : lookupChain N0 (chainName port) = none)
    (hR : referenced N0 (chainName port) = false)
    (hN : (N0.map Prod.fst).Nodup)
    (hNm : (M0.map Prod.fst).Nodup) :
    restore_firewall iptablesBackend port AF_INET false user
      ⟨coreResultState ⟨N0, M0⟩ port dnsport nslist subnets user o pr mo,
       tr, none⟩ =
      ⟨⟨N0, M0⟩, tr ++ restoreEvents port user, none⟩ := by
  cases user with
  | none =>
    exact restore_inverts_none port dnsport nslist subnets N0 M0 o pr mo tr
      hO hP hK hR hN
  | some u =>
    exact restore_inverts_some port dnsport u nslist subnets N0 M0 o pr mo tr
      hO hP hM hK hR hN hNm

theorem setup_firewall_valid {σ : Type} (b : Backend σ) (port dnsport : Nat)
    (nslist : List (Nat × String)) (subnets : List SubnetEntry)
    (user : Option Nat) (st : St σ) (h : st.err = none) :
    setup_firewall b port dnsport nslist AF_INET subnets false user st =
      setup_core b port dnsport nslist AF_INET subnets user
        (restore_firewall b port AF_INET false user st) := by
  obtain ⟨s, tr, e⟩ := st
  simp only [St.err] at h
  subst h
  simp [setup_firewall]

/-- Claim C3: from any packet-filter state that has OUTPUT and
PREROUTING chains in the nat table, an OUTPUT chain in the mangle
table, and no chain or reference named `sshuttle-<port>`, running
`setup_firewall` twice in a row with the same policy succeeds both
times and leaves exactly the packet-filter state of a single call — the
unconditional teardown prefix removes the first call's rules before
they are reinstalled, so no rule is duplicated. -/
theorem setup_firewall_idempotent (port dnsport : Nat)
    (nslist : List (Nat × String)) (subnets : List SubnetEntry)
    (user : Option Nat) (N0 M0 : Chains) (o pr mo : List Rule)
    (hO : lookupChain N0 "OUTPUT" = some o)
    (hP : lookupChain N0 "PREROUTING" = some pr)
    (hM : lookupChain M0 "OUTPUT" = some mo)
    (hK : lookupChain N0 (chainName port) = none)
    (hR : referenced N0 (chainName port) = false)
    (hN : (N0.map Prod.fst).Nodup)
    (hNm : (M0.map Prod.fst).Nodup) :
    (setup_firewall iptablesBackend port dnsport nslist AF_INET subnets false
      user ⟨⟨N0, M0⟩, [], none⟩).err = none ∧
    (setup_firewall iptablesBackend port dnsport nslist AF_INET subnets false
      user ⟨(setup_firewall iptablesBackend port dnsport nslist AF_INET
        subnets false user ⟨⟨N0, M0⟩, [], none⟩).sys, [], none⟩).err = none ∧
    (setup_firewall iptablesBackend port dnsport nslist AF_INET subnets false
      user ⟨(setup_firewall iptablesBackend port dnsport nslist AF_INET
        subnets false user ⟨⟨N0, M0⟩, [], none⟩).sys, [], none⟩).sys =
    (setup_firewall iptablesBackend port dnsport nslist AF_INET subnets false
      user ⟨⟨N0, M0⟩, [], none⟩).sys := by
  have hq : iptablesBackend.chainExists ⟨N0, M0⟩ AF_INET "nat"
      (chainName port) = false := by
    simp [iptablesBackend, hK]
  have h1 : setup_firewall iptablesBackend port dnsport nslist AF_INET subnets
      false user ⟨⟨N0, M0⟩, [], none⟩ =
      ⟨coreResultState ⟨N0, M0⟩ port dnsport nslist subnets user o pr mo,
       [Event.queryChain AF_INET "nat" (chainName port)]
         ++ coreEvents port dnsport nslist subnets user, none⟩ := by
    rw [setup_firewall_valid iptablesBackend port dnsport nslist subnets user
      _ rfl]
    rw [restore_no_chain_noop iptablesBackend ⟨N0, M0⟩ [] port user hq]
    simp only [List.nil_append]
    exact core_ipt port dnsport nslist subnets user N0 M0 o pr mo _ hO hP hM hK
  have h2 : setup_firewall iptablesBackend port dnsport nslist AF_INET subnets
      false user
      ⟨coreResultState ⟨N0, M0⟩ port dnsport nslist subnets user o pr mo,
       [], none⟩ =
      ⟨coreResultState ⟨N0, M0⟩ port dnsport nslist subnets user o pr mo,
       restoreEvents port user ++ coreEvents port dnsport nslist subnets user,
       none⟩ := by
    rw [setup_firewall_valid iptablesBackend port dnsport nslist subnets user
      _ rfl]
    rw [restore_inverts port dnsport nslist subnets user N0 M0 o pr mo []
      hO hP hM hK hR hN hNm]
    simp only [List.nil_append]
    exact core_ipt port dnsport nslist subnets user N0 M0 o pr mo _ hO hP hM hK
  refine ⟨?e1, ?e2, ?s2⟩
  case e1 => rw [h1]
  case e2 =>
    rw [h1]
    show (setup_firewall iptablesBackend port dnsport nslist AF_INET subnets
      false user
      ⟨coreResultState ⟨N0, M0⟩ port dnsport nslist subnets user o pr mo,
       [], none⟩).err = none
    rw [h2]
  case s2 =>
    rw [h1]
    show (setup_firewall iptablesBackend port dnsport nslist AF_INET subnets
      false user
      ⟨coreResultState ⟨N0, M0⟩ port dnsport nslist subnets user o pr mo,
       [], none⟩).sys =
      (⟨coreResultState ⟨N0, M0⟩ port dnsport nslist subnets user o pr mo,
        [Event.queryChain AF_INET "nat" (chainName port)]
          ++ coreEvents port dnsport nslist subnets user, none⟩ :
        St IptState).sys
    rw [h2]

theorem setup_firewall_idempotent_witness :
    (lookupChain [("OUTPUT", []), ("PREROUTING", [])] "OUTPUT" = some [] ∧
     lookupChain [("OUTPUT", []), ("PREROUTING", [])] "PREROUTING" = some [] ∧
     lookupChain [("OUTPUT", [])] "OUTPUT" = some [] ∧
     lookupChain [("OUTPUT", []), ("PREROUTING", [])] (chainName 12300) = none ∧
     referenced [("OUTPUT", []), ("PREROUTING", [])] (chainName 12300) = false ∧
     (([("OUTPUT", []), ("PREROUTING", [])] : Chains).map Prod.fst).Nodup ∧
     (([("OUTPUT", [])] : Chains).map Prod.fst).Nodup) ∧
    ((setup_firewall iptablesBackend 12300 12301 [(2, "10.0.0.1")] AF_INET
      [⟨2, 8, false, "10.0.0.0", 0, 0⟩] false (some 1000)
      ⟨⟨[("OUTPUT", []), ("PREROUTING", [])], [("OUTPUT", [])]⟩, [], none⟩).err
        = none ∧
     (setup_firewall iptablesBackend 12300 12301 [(2, "10.0.0.1")] AF_INET
      [⟨2, 8, false, "10.0.0.0", 0, 0⟩] false (some 1000)
      ⟨(setup_firewall iptablesBackend 12300 12301 [(2, "10.0.0.1")] AF_INET
        [⟨2, 8, false, "10.0.0.0", 0, 0⟩] false (some 1000)
        ⟨⟨[("OUTPUT", []), ("PREROUTING", [])], [("OUTPUT", [])]⟩, [], none⟩).sys,
       [], none⟩).err = none ∧
     (setup_firewall iptablesBackend 12300 12301 [(2, "10.0.0.1")] AF_INET
      [⟨2, 8, false, "10.0.0.0", 0, 0⟩] false (some 1000)
      ⟨(setup_firewall iptablesBackend 12300 12301 [(2, "10.0.0.1")] AF_INET
        [⟨2, 8, false, "10.0.0.0", 0, 0⟩] false (some 1000)
        ⟨⟨[("OUTPUT", []), ("PREROUTING", [])], [("OUTPUT", [])]⟩, [], none⟩).sys,
       [], none⟩).sys =
     (setup_firewall iptablesBackend 12300 12301 [(2, "10.0.0.1")] AF_INET
      [⟨2, 8, false, "10.0.0.0", 0, 0⟩] false (some 1000)
      ⟨⟨[("OUTPUT", []), ("PREROUTING", [])], [("OUTPUT", [])]⟩, [], none⟩).sys) :=
  ⟨⟨by decide, by decide, by decide, by decide, by decide, by decide, by decide⟩,
   setup_firewall_idempotent 12300 12301 [(2, "10.0.0.1")]
     [⟨2, 8, false, "10.0.0.0", 0, 0⟩] (some 1000)
     [("OUTPUT", []), ("PREROUTING", [])] [("OUTPUT", [])] [] [] []
     (by decide) (by decide) (by decide) (by decide) (by decide) (by decide)
     (by decide)⟩

end SshuttleNat
